import Mathlib

/-!
Verification development for the Olympus protocol node (Rust sources).

Each Rust module relevant to the checked claims is shallowly embedded as
executable Lean definitions, and the claimed properties are settled as
theorems about those definitions.

Modelling conventions, used throughout:
* machine integers (`u8`, `u64`, `usize`, `U256`) are modelled as `Nat`;
  where the Rust arithmetic can overflow or underflow (the `uint` crate's
  `U256` operators and `num_bigint::BigUint` subtraction panic in that
  case), the operation is modelled in an `Except Unit` monad whose
  `Except.error ()` value stands for the panic;
* 20-byte addresses and 32-byte hashes are modelled as `Nat` values
  (their big-endian numeric value); byte strings are `List Nat` with one
  `Nat` per byte;
* Rust `HashMap` / `HashSet` contents are modelled as association lists /
  lists kept in insertion order; where the source iterates a `HashMap`
  (whose order is arbitrary), the model iterates in insertion order, a
  deterministic refinement of the source behaviour.
-/

deriving instance DecidableEq for Except

namespace Olympus

/-- Association-list lookup keyed by `Nat`; models `HashMap::get`. -/
def alookup {α : Type} (l : List (Nat × α)) (k : Nat) : Option α :=
  match l with
  | [] => none
  | (k2, v) :: rest => if k2 = k then some v else alookup rest k

/-- Models `map.entry(k).or_insert_with(Vec::new).push(v)`: append `v` to the
vector stored under `k`, creating the entry if absent. -/
def assocPush (l : List (Nat × List Nat)) (k v : Nat) : List (Nat × List Nat) :=
  match l with
  | [] => [(k, [v])]
  | (k2, vs) :: rest =>
    if k2 = k then (k2, vs ++ [v]) :: rest else (k2, vs) :: assocPush rest k v

/-- Models `map.entry(k).or_insert(0); *count += 1` from
`DagConsensus::select_next_witnesses`. -/
def assocIncr (l : List (Nat × Nat)) (k : Nat) : List (Nat × Nat) :=
  match l with
  | [] => [(k, 1)]
  | (k2, c) :: rest =>
    if k2 = k then (k2, c + 1) :: rest else (k2, c) :: assocIncr rest k

/-- The error kinds of `OlympusError` (src/src/lib.rs) that the embedded
code can produce. The `String` argument carries the static part of the
formatted message; dynamic `format!` parameters are elided. -/
inductive OlError where
  | invalidTransaction (msg : String)
  | invalidBlock (msg : String)
  | consensus (msg : String)
  | evmExecution (msg : String)
deriving DecidableEq, Repr

/-! ## DAG consensus (src/src/consensus/dag.rs)

Block hashes and addresses are abstract `Nat` identifiers here; the hash
function `Block::hash()` (Keccak-256 of the RLP encoding) is passed as an
explicit parameter `hashFn` to the operations that invoke it. -/

/-- The fields of `core::block::Block` that `DagConsensus` reads: `from`
(the creator address), `parents` and `approves` (lists of hashes). The
remaining block fields are never inspected by the consensus engine and are
omitted from this embedding. -/
structure DagBlock where
  fromAddr : Nat
  parents : List Nat
  approves : List Nat
deriving DecidableEq, Repr

/-- `BlockDag` (dag.rs lines 27-40). Maps and sets are kept as
insertion-ordered lists. -/
structure BlockDag where
  blocks : List (Nat × DagBlock)
  references : List (Nat × List Nat)
  approvals : List (Nat × List Nat)
  confirmed : List Nat
  stable : List Nat
  maxBlocks : Nat
deriving DecidableEq, Repr

/-- `ConsensusResult` (dag.rs lines 44-53). -/
structure ConsensusResult where
  consensusReached : Bool
  confirmedBlocks : List Nat
  stableBlocks : List Nat
  nextWitnesses : List Nat
deriving DecidableEq, Repr

/-- `DagConsensus` (dag.rs lines 10-23); of the `witness_manager` only the
`min_witnesses` / `max_witnesses` bounds are read on the process path. -/
structure DagConsensus where
  currentEpoch : Nat
  witnesses : List Nat
  minWitnesses : Nat
  maxWitnesses : Nat
  dag : BlockDag
  confirmationThreshold : Nat
  epochDuration : Nat
deriving DecidableEq, Repr

/-- `BlockDag::new(max_blocks)` with empty maps (dag.rs lines 245-254). -/
def BlockDag.mkNew (maxBlocks : Nat) : BlockDag :=
  { blocks := [], references := [], approvals := [], confirmed := [],
    stable := [], maxBlocks := maxBlocks }

/-- `DagConsensus::new` (dag.rs lines 57-66); the inner DAG uses
`BlockDag::new_default()`, i.e. `max_blocks = 1000`. -/
def DagConsensus.mkNew (minW maxW thresh dur : Nat) : DagConsensus :=
  { currentEpoch := 0, witnesses := [], minWitnesses := minW,
    maxWitnesses := maxW, dag := BlockDag.mkNew 1000,
    confirmationThreshold := thresh, epochDuration := dur }

/-- `BlockDag::add_block` (dag.rs lines 262-269): reject a duplicate hash,
otherwise insert the block. -/
def BlockDag.addBlock (d : BlockDag) (h : Nat) (b : DagBlock) :
    Except OlError BlockDag :=
  if (alookup d.blocks h).isSome then
    .error (.consensus "Block already exists in DAG")
  else
    .ok { d with blocks := d.blocks ++ [(h, b)] }

/-- `DagConsensus::update_dag_structure` (dag.rs lines 95-113). Note that
both the parent references and the approvals are recorded under the NEW
block's own hash `h`. -/
def DagConsensus.updateDagStructure (s : DagConsensus) (h : Nat) : DagConsensus :=
  match alookup s.dag.blocks h with
  | none => s
  | some b =>
    let refs := b.parents.foldl (fun acc p => assocPush acc h p) s.dag.references
    let apps := b.approves.foldl (fun acc a => assocPush acc h a) s.dag.approvals
    { s with dag := { s.dag with references := refs, approvals := apps } }

/-- `DagConsensus::has_enough_confirmations` (dag.rs lines 151-157). -/
def DagConsensus.hasEnoughConfirmations (s : DagConsensus) (h : Nat) : Bool :=
  match alookup s.dag.approvals h with
  | some l => decide (s.confirmationThreshold ≤ l.length)
  | none => false

/-- `DagConsensus::can_be_stable` (dag.rs lines 160-175). -/
def DagConsensus.canBeStable (s : DagConsensus) (h : Nat) : Bool :=
  if !(s.dag.confirmed.contains h) then false
  else
    match alookup s.dag.references h with
    | some refs => refs.all (fun r => s.dag.stable.contains r)
    | none => true

/-- One iteration of the block scan inside `DagConsensus::check_consensus`
(dag.rs lines 121-137). The accumulator carries the engine state plus the
`confirmed_blocks` / `stable_blocks` result vectors being built. -/
def DagConsensus.checkStep (acc : DagConsensus × List Nat × List Nat) (h : Nat) :
    DagConsensus × List Nat × List Nat :=
  let (s, confNew, stabNew) := acc
  if s.dag.confirmed.contains h then acc
  else if s.hasEnoughConfirmations h then
    let s1 := { s with dag := { s.dag with confirmed := s.dag.confirmed ++ [h] } }
    if s1.canBeStable h then
      ({ s1 with dag := { s1.dag with stable := s1.dag.stable ++ [h] } },
       confNew ++ [h], stabNew ++ [h])
    else (s1, confNew ++ [h], stabNew)
  else acc

/-- Descending insertion into a count-sorted list; models
`candidates.sort_by(|a, b| b.1.cmp(&a.1))`. The source sorts the contents
of a `HashMap` whose iteration order is arbitrary, so any deterministic
order refines it. -/
def insertByCountDesc (x : Nat × Nat) : List (Nat × Nat) → List (Nat × Nat)
  | [] => [x]
  | y :: ys => if y.2 < x.2 then x :: y :: ys else y :: insertByCountDesc x ys

/-- Sort candidate `(address, count)` pairs by descending count. -/
def sortByCountDesc (l : List (Nat × Nat)) : List (Nat × Nat) :=
  l.foldl (fun acc x => insertByCountDesc x acc) []

/-- `DagConsensus::select_next_witnesses` (dag.rs lines 178-205): tally the
`from` address of each newly-stable block, sort by descending count, take
the top `max_witnesses`, pad with the zero address up to `min_witnesses`. -/
def DagConsensus.selectNextWitnesses (s : DagConsensus) (stabNew : List Nat) :
    List Nat :=
  let tally := stabNew.foldl (fun acc h =>
    match alookup s.dag.blocks h with
    | some b => assocIncr acc b.fromAddr
    | none => acc) []
  let ws := ((sortByCountDesc tally).take s.maxWitnesses).map Prod.fst
  ws ++ List.replicate (s.minWitnesses - ws.length) 0

/-- `DagConsensus::check_consensus` (dag.rs lines 116-148). The source
iterates the `blocks` `HashMap`; the model iterates in insertion order. -/
def DagConsensus.checkConsensus (s : DagConsensus) :
    DagConsensus × ConsensusResult :=
  let keys := s.dag.blocks.map Prod.fst
  let (s1, confNew, stabNew) := keys.foldl DagConsensus.checkStep (s, [], [])
  let nw := s1.selectNextWitnesses stabNew
  (s1, { consensusReached := !confNew.isEmpty, confirmedBlocks := confNew,
         stableBlocks := stabNew, nextWitnesses := nw })

/-- `BlockDag::clear_old_blocks` (dag.rs lines 272-295): when over the
`max_blocks` cap, evict the first `len - max_blocks` keys in iteration
order from every map and set. -/
def BlockDag.clearOldBlocks (d : BlockDag) : BlockDag :=
  if d.maxBlocks < d.blocks.length then
    let toRemove := (d.blocks.take (d.blocks.length - d.maxBlocks)).map Prod.fst
    { d with
      blocks := d.blocks.filter (fun kv => !(toRemove.contains kv.1)),
      references := d.references.filter (fun kv => !(toRemove.contains kv.1)),
      approvals := d.approvals.filter (fun kv => !(toRemove.contains kv.1)),
      confirmed := d.confirmed.filter (fun h => !(toRemove.contains h)),
      stable := d.stable.filter (fun h => !(toRemove.contains h)) }
  else d

/-- `DagConsensus::should_update_epoch` (dag.rs lines 208-210). -/
def DagConsensus.shouldUpdateEpoch (s : DagConsensus) : Bool :=
  decide (s.epochDuration ≤ s.dag.stable.length)

/-- `DagConsensus::update_epoch` (dag.rs lines 213-220). -/
def DagConsensus.updateEpoch (s : DagConsensus) : DagConsensus :=
  { s with currentEpoch := s.currentEpoch + 1, dag := s.dag.clearOldBlocks }

/-- `DagConsensus::process_block` (dag.rs lines 74-92). `hashFn` stands for
`Block::hash()`. Returns the post-call engine state together with the
`Result<ConsensusResult>`. -/
def DagConsensus.processBlock (hashFn : DagBlock → Nat) (s : DagConsensus)
    (b : DagBlock) : DagConsensus × Except OlError ConsensusResult :=
  let h := hashFn b
  match s.dag.addBlock h b with
  | .error e => (s, .error e)
  | .ok dag1 =>
    let s1 := { s with dag := dag1 }
    let s2 := s1.updateDagStructure h
    let (s3, res) := s2.checkConsensus
    let s4 := if s3.shouldUpdateEpoch then s3.updateEpoch else s3
    (s4, .ok res)

/-- Fold `process_block` over a list of incoming blocks, keeping the state. -/
def DagConsensus.processAll (hashFn : DagBlock → Nat) (s : DagConsensus)
    (bs : List DagBlock) : DagConsensus :=
  bs.foldl (fun st b => (DagConsensus.processBlock hashFn st b).1) s

/-! ### Lemmas: the stable set stays inside the confirmed set -/

/-- Invariant: every stable hash is confirmed. -/
def StableSubConf (s : DagConsensus) : Prop :=
  ∀ x, x ∈ s.dag.stable → x ∈ s.dag.confirmed

lemma addBlock_ok_sets {d d1 : BlockDag} {h : Nat} {b : DagBlock}
    (e : d.addBlock h b = .ok d1) :
    d1.stable = d.stable ∧ d1.confirmed = d.confirmed := by
  unfold BlockDag.addBlock at e
  split at e
  · exact absurd e (by simp)
  · simp only [Except.ok.injEq] at e
    subst e
    exact ⟨rfl, rfl⟩

lemma updateDagStructure_sets (s : DagConsensus) (h : Nat) :
    (s.updateDagStructure h).dag.stable = s.dag.stable ∧
      (s.updateDagStructure h).dag.confirmed = s.dag.confirmed := by
  unfold DagConsensus.updateDagStructure
  rcases e : alookup s.dag.blocks h with _ | b <;> simp [e]

lemma checkStep_stable_sub (s : DagConsensus) (cn sn : List Nat) (h : Nat)
    (inv : StableSubConf s) :
    ∀ x, x ∈ (DagConsensus.checkStep (s, cn, sn) h).1.dag.stable →
      x ∈ (DagConsensus.checkStep (s, cn, sn) h).1.dag.confirmed := by
  intro x
  unfold DagConsensus.checkStep
  by_cases h1 : h ∈ s.dag.confirmed
  · simp only [List.elem_eq_mem, h1, decide_True, if_true, List.contains]
    exact inv x
  · simp only [List.elem_eq_mem, h1, decide_False, if_false, List.contains]
    by_cases h2 : s.hasEnoughConfirmations h
    · rw [if_pos h2]
      by_cases h3 : DagConsensus.canBeStable
          { s with dag := { s.dag with confirmed := s.dag.confirmed ++ [h] } } h
      · rw [if_pos h3]
        show x ∈ s.dag.stable ++ [h] → x ∈ s.dag.confirmed ++ [h]
        simp only [List.mem_append, List.mem_singleton]
        rintro (hx | hx)
        · exact Or.inl (inv x hx)
        · exact Or.inr hx
      · rw [if_neg h3]
        show x ∈ s.dag.stable → x ∈ s.dag.confirmed ++ [h]
        simp only [List.mem_append, List.mem_singleton]
        intro hx
        exact Or.inl (inv x hx)
    · rw [if_neg h2]
      exact inv x

lemma checkFold_stable_sub (keys : List Nat) :
    ∀ (s : DagConsensus) (cn sn : List Nat), StableSubConf s →
      ∀ x, x ∈ (keys.foldl DagConsensus.checkStep (s, cn, sn)).1.dag.stable →
        x ∈ (keys.foldl DagConsensus.checkStep (s, cn, sn)).1.dag.confirmed := by
  induction keys with
  | nil => intro s cn sn inv; simpa using inv
  | cons k ks ih =>
    intro s cn sn inv
    simp only [List.foldl_cons]
    rcases e : DagConsensus.checkStep (s, cn, sn) k with ⟨s1, cn1, sn1⟩
    have inv1 : StableSubConf s1 := by
      have h2 := checkStep_stable_sub s cn sn k inv
      rw [e] at h2
      exact h2
    exact ih s1 cn1 sn1 inv1

lemma checkConsensus_stable_sub (s : DagConsensus) (inv : StableSubConf s) :
    StableSubConf s.checkConsensus.1 := by
  rcases e : (s.dag.blocks.map Prod.fst).foldl DagConsensus.checkStep (s, [], [])
    with ⟨s1, cn, sn⟩
  have h2 := checkFold_stable_sub (s.dag.blocks.map Prod.fst) s [] [] inv
  rw [e] at h2
  intro x
  unfold DagConsensus.checkConsensus
  dsimp only
  rw [e]
  exact h2 x

lemma clearOldBlocks_stable_sub (d : BlockDag)
    (inv : ∀ x, x ∈ d.stable → x ∈ d.confirmed) :
    ∀ x, x ∈ d.clearOldBlocks.stable → x ∈ d.clearOldBlocks.confirmed := by
  intro x
  unfold BlockDag.clearOldBlocks
  by_cases h1 : d.maxBlocks < d.blocks.length
  · simp only [h1, if_true, List.mem_filter]
    rintro ⟨hx, hp⟩
    exact ⟨inv x hx, hp⟩
  · simpa [h1] using inv x

lemma processBlock_stable_sub (hashFn : DagBlock → Nat) (s : DagConsensus)
    (b : DagBlock) (inv : StableSubConf s) :
    StableSubConf (DagConsensus.processBlock hashFn s b).1 := by
  unfold DagConsensus.processBlock
  dsimp only
  cases e : s.dag.addBlock (hashFn b) b with
  | error err => exact inv
  | ok dag1 =>
    dsimp only
    have hsets := addBlock_ok_sets e
    have inv1 : StableSubConf { s with dag := dag1 } := by
      intro x hx
      show x ∈ dag1.confirmed
      rw [hsets.2]
      exact inv x (by rw [← hsets.1]; exact hx)
    have inv2 : StableSubConf
        (DagConsensus.updateDagStructure { s with dag := dag1 } (hashFn b)) := by
      intro x hx
      have hu := updateDagStructure_sets { s with dag := dag1 } (hashFn b)
      rw [hu.2]
      exact inv1 x (by rw [← hu.1]; exact hx)
    cases e2 : (DagConsensus.updateDagStructure { s with dag := dag1 }
        (hashFn b)).checkConsensus with
    | mk s3 res =>
      have inv3 : StableSubConf s3 := by
        have h3 := checkConsensus_stable_sub
          (DagConsensus.updateDagStructure { s with dag := dag1 } (hashFn b)) inv2
        rw [e2] at h3
        exact h3
      dsimp only
      by_cases h4 : s3.shouldUpdateEpoch
      · rw [if_pos h4]
        intro x hx
        exact clearOldBlocks_stable_sub s3.dag inv3 x hx
      · rw [if_neg h4]
        exact inv3

lemma processAll_stable_sub (hashFn : DagBlock → Nat) (bs : List DagBlock) :
    ∀ s : DagConsensus, StableSubConf s →
      StableSubConf (DagConsensus.processAll hashFn s bs) := by
  induction bs with
  | nil => intro s inv; simpa [DagConsensus.processAll] using inv
  | cons b rest ih =>
    intro s inv
    have h1 := processBlock_stable_sub hashFn s b inv
    simpa [DagConsensus.processAll, List.foldl_cons] using
      ih (DagConsensus.processBlock hashFn s b).1 h1

/-! ### Claim theorems for the DAG engine -/

/-- Hash function used in the concrete DAG evaluations: each test block
carries a distinct creator address, which serves as its hash (standing for
the collision-free Keccak-256 block hash). -/
def dagHashFn : DagBlock → Nat := DagBlock.fromAddr

/-- The C1 setup: `confirmation_threshold = 2`; `B1` has no parents and no
approves, `B2` and `B3` each approve `B1` (hash 1). -/
def c1Final : DagConsensus :=
  (DagConsensus.mkNew 3 21 2 100).processAll dagHashFn
    [⟨1, [], []⟩, ⟨2, [], [1]⟩, ⟨3, [], [1]⟩]

/-- C1: with `confirmation_threshold = 2`, after processing `B1` (no
parents, no approves), `B2` approving `B1` and `B3` approving `B1`, the
code leaves the confirmed set EMPTY — in particular `B1` is not confirmed,
contradicting the claim. `update_dag_structure` records
`block.approves` under the new block's own hash, so `approvals[B1]` never
grows and `has_enough_confirmations(B1)` is always false. -/
theorem c1_confirmation_promotion_fails :
    c1Final.dag.approvals = [(2, [1]), (3, [1])] ∧
      c1Final.dag.confirmed = [] ∧ ¬ (1 ∈ c1Final.dag.confirmed) := by
  decide

/-- C8: stable ⊆ confirmed after any sequence of `process_block` calls
(for any block hash function, any consensus configuration, and any block
sequence, including ones that trigger epoch rotation and garbage
collection) starting from a freshly constructed DAG. -/
theorem c8_stable_subset_confirmed (hashFn : DagBlock → Nat)
    (minW maxW thresh dur : Nat) (bs : List DagBlock) (h : Nat)
    (hs : h ∈ (DagConsensus.processAll hashFn
      (DagConsensus.mkNew minW maxW thresh dur) bs).dag.stable) :
    h ∈ (DagConsensus.processAll hashFn
      (DagConsensus.mkNew minW maxW thresh dur) bs).dag.confirmed := by
  refine processAll_stable_sub hashFn bs _ ?_ h hs
  intro x hx
  simp [DagConsensus.mkNew, BlockDag.mkNew] at hx

/-- C8 witness: with threshold 1, a single block approving some hash
becomes both confirmed and stable, and the theorem applies to it. -/
theorem c8_stable_subset_confirmed_witness :
    1 ∈ (DagConsensus.processAll dagHashFn (DagConsensus.mkNew 3 21 1 100)
        [⟨1, [], [42]⟩]).dag.stable ∧
      1 ∈ (DagConsensus.processAll dagHashFn (DagConsensus.mkNew 3 21 1 100)
        [⟨1, [], [42]⟩]).dag.confirmed :=
  ⟨by decide, c8_stable_subset_confirmed dagHashFn 3 21 1 100 [⟨1, [], [42]⟩] 1
    (by decide)⟩

/-- C9: redelivering a block whose hash is already present returns the
duplicate-insertion `Consensus` error and returns the DAG state completely
unchanged. -/
theorem c9_duplicate_process_block (hashFn : DagBlock → Nat)
    (s : DagConsensus) (b : DagBlock)
    (hmem : (alookup s.dag.blocks (hashFn b)).isSome = true) :
    DagConsensus.processBlock hashFn s b =
      (s, .error (.consensus "Block already exists in DAG")) := by
  unfold DagConsensus.processBlock BlockDag.addBlock
  simp [hmem]

/-- C9 witness: insert a block once, then redeliver it. -/
theorem c9_duplicate_process_block_witness :
    DagConsensus.processBlock dagHashFn
        ((DagConsensus.mkNew 3 21 2 100).processAll dagHashFn [⟨1, [], []⟩])
        ⟨1, [], []⟩ =
      (((DagConsensus.mkNew 3 21 2 100).processAll dagHashFn [⟨1, [], []⟩]),
        .error (.consensus "Block already exists in DAG")) :=
  c9_duplicate_process_block dagHashFn
    ((DagConsensus.mkNew 3 21 2 100).processAll dagHashFn [⟨1, [], []⟩])
    ⟨1, [], []⟩ (by decide)

/-! ## RLP (the parity `rlp` crate, as used by core/transaction.rs and
core/block.rs)

The codec is modelled at the level of RLP items. An `RlpStream` collects
top-level items in order; `begin_list(n)` opens a nested list that closes
after exactly `n` appended items (`note_appended` in the crate), and an
append onto a stream with no open list lands as an additional top-level
item — exactly the crate behaviour, where such an append concatenates its
encoding after the finished list in the buffer. `out()` panics when a list
is still open and otherwise returns the buffer, i.e. the concatenated
encodings of the top-level items; `rlp::decode` then reads the first item
of the buffer. -/

/-- An RLP item: a byte string or a list of items. Bytes are `Nat` values
below 256. -/
inductive RlpItem where
  | str (bytes : List Nat)
  | list (items : List RlpItem)

/-- Minimal big-endian bytes of `n` (empty for 0), with an explicit fuel
argument so that the recursion is structural; `n` itself is always enough
fuel since `n / 256 < n` for positive `n`. -/
def natBEBytesAux : Nat → Nat → List Nat
  | 0, _ => []
  | _, 0 => []
  | fuel + 1, n => natBEBytesAux fuel (n / 256) ++ [n % 256]

/-- Minimal big-endian byte string of a `Nat`; models the leading-zero
stripped encoding the `rlp` crate uses for `U256`, `u64`, `u8` and
`usize`. -/
def natBEBytes (n : Nat) : List Nat := natBEBytesAux n n

/-- Fixed-width big-endian byte string (width `w`); models the `H160` /
`H256` encodings, which always emit all 20 / 32 bytes. -/
def natBEBytesPadded (w n : Nat) : List Nat :=
  List.replicate (w - (natBEBytes n).length) 0 ++ natBEBytes n

/-- Big-endian bytes to `Nat`. -/
def beToNat (bs : List Nat) : Nat := bs.foldl (fun a b => a * 256 + b) 0

/-- RLP item appended for a trimmed unsigned integer (`U256`, `u64`,
`u8`). -/
def rlpUint (n : Nat) : RlpItem := .str (natBEBytes n)

/-- RLP item appended for a fixed-width hash / address value. -/
def rlpFixed (w n : Nat) : RlpItem := .str (natBEBytesPadded w n)

/-- Serialize one RLP item to bytes (standard RLP framing); used where the
source takes the byte length of an encoding. -/
def rlpHeader (base len : Nat) : List Nat :=
  if len < 56 then [base + len]
  else (base + 55 + (natBEBytes len).length) :: natBEBytes len

mutual
def rlpItemBytes : RlpItem → List Nat
  | .str bs =>
    match bs with
    | [b] => if b < 128 then [b] else rlpHeader 128 1 ++ [b]
    | _ => rlpHeader 128 bs.length ++ bs
  | .list items =>
    let payload := rlpItemsBytes items
    rlpHeader 192 payload.length ++ payload

def rlpItemsBytes : List RlpItem → List Nat
  | [] => []
  | it :: rest => rlpItemBytes it ++ rlpItemsBytes rest
end

/-- The `RlpStream` state: the stack of unfinished lists (declared length
and items collected so far), and the finished top-level items. -/
structure RlpStream where
  pending : List (Nat × List RlpItem)
  top : List RlpItem

/-- `note_appended`: deliver a finished item to the innermost open list,
closing lists that reach their declared length; with no open list the item
becomes an additional top-level item. -/
def pushItem : RlpItem → List (Nat × List RlpItem) → List RlpItem → RlpStream
  | item, [], top => ⟨[], top ++ [item]⟩
  | item, (max, items) :: rest, top =>
    let items2 := items ++ [item]
    if items2.length = max then pushItem (.list items2) rest top
    else ⟨(max, items2) :: rest, top⟩

/-- `RlpStream::new()`. -/
def RlpStream.mkNew : RlpStream := ⟨[], []⟩

/-- `RlpStream::append` of a single already-encoded value. -/
def RlpStream.appendItem (st : RlpStream) (it : RlpItem) : RlpStream :=
  pushItem it st.pending st.top

/-- `RlpStream::begin_list(n)`: `n = 0` immediately emits the empty list;
otherwise an unfinished list is pushed. -/
def RlpStream.beginList (st : RlpStream) (n : Nat) : RlpStream :=
  if n = 0 then st.appendItem (.list [])
  else { st with pending := (n, []) :: st.pending }

/-- `RlpStream::append_list(values)` for a vector of `H256` values:
`begin_list(len)` followed by appending each element, which nets to one
nested-list item in the enclosing stream. -/
def RlpStream.appendHashList (st : RlpStream) (hs : List Nat) : RlpStream :=
  st.appendItem (.list (hs.map (rlpFixed 32)))

/-- `RlpStream::out()`: panics (`Except.error ()`) while a list is still
open, otherwise returns the stream contents. -/
def RlpStream.out (st : RlpStream) : Except Unit (List RlpItem) :=
  if st.pending.isEmpty then .ok st.top else .error ()

/-- The byte length of a finished stream; `out().len()` in the source
(the buffer concatenates the top-level items). -/
def RlpStream.outLen (st : RlpStream) : Nat := (rlpItemsBytes st.top).length

/-- `rlp::DecoderError` values the embedded decoders produce. -/
inductive DecoderError where
  | rlpIsTooShort
  | rlpIncorrectListLen
  | rlpExpectedToBeData
  | rlpExpectedToBeList
  | rlpIsTooBig
  | rlpInvalidIndirection
deriving DecidableEq, Repr

/-- `Rlp::new(buffer)` positions at the first item of the buffer. -/
def rlpFirst (out : List RlpItem) : Except DecoderError RlpItem :=
  match out with
  | [] => .error .rlpIsTooShort
  | it :: _ => .ok it

/-- `Rlp::item_count()`. -/
def RlpItem.itemCount : RlpItem → Except DecoderError Nat
  | .list items => .ok items.length
  | .str _ => .error .rlpExpectedToBeList

/-- `Rlp::at(i)`: the `i`-th sub-item of a list, `RlpIsTooShort` past the
end. -/
def RlpItem.atIdx : RlpItem → Nat → Except DecoderError RlpItem
  | .list items, i =>
    match items.get? i with
    | some it => .ok it
    | none => .error .rlpIsTooShort
  | .str _, _ => .error .rlpExpectedToBeList

/-- Decode a trimmed big-endian unsigned integer of at most `maxBytes`
bytes (`U256`: 32, `u64`: 8, `u8`: 1); a leading zero byte is
`RlpInvalidIndirection`, oversize is `RlpIsTooBig`. -/
def decodeUintItem (maxBytes : Nat) : RlpItem → Except DecoderError Nat
  | .str bs =>
    if bs.length ≠ 0 ∧ bs.headD 0 = 0 then .error .rlpInvalidIndirection
    else if bs.length ≤ maxBytes then .ok (beToNat bs)
    else .error .rlpIsTooBig
  | .list _ => .error .rlpExpectedToBeData

/-- Decode a fixed-width `H160` / `H256` value: the byte string must have
exactly `w` bytes. -/
def decodeHashItem (w : Nat) : RlpItem → Except DecoderError Nat
  | .str bs =>
    if bs.length < w then .error .rlpIsTooShort
    else if w < bs.length then .error .rlpIsTooBig
    else .ok (beToNat bs)
  | .list _ => .error .rlpExpectedToBeData

/-- Decode a `Vec<u8>` payload. -/
def decodeBytesItem : RlpItem → Except DecoderError (List Nat)
  | .str bs => .ok bs
  | .list _ => .error .rlpExpectedToBeData

/-- Decode a list of `H256` values (`Rlp::list_at`). -/
def decodeHashListItem (w : Nat) : RlpItem → Except DecoderError (List Nat)
  | .str _ => .error .rlpExpectedToBeList
  | .list items =>
    items.foldr (fun it acc =>
      match decodeHashItem w it, acc with
      | .ok v, .ok vs => .ok (v :: vs)
      | .error e, _ => .error e
      | _, .error e => .error e) (.ok [])

/-- `rlp.val_at(i)` for integer fields. -/
def valAtUint (maxBytes : Nat) (it : RlpItem) (i : Nat) :
    Except DecoderError Nat :=
  match it.atIdx i with
  | .error e => .error e
  | .ok x => decodeUintItem maxBytes x

/-- `rlp.val_at(i)` for hash / address fields. -/
def valAtHash (w : Nat) (it : RlpItem) (i : Nat) : Except DecoderError Nat :=
  match it.atIdx i with
  | .error e => .error e
  | .ok x => decodeHashItem w x

/-- `rlp.val_at(i)` for byte-string fields. -/
def valAtBytes (it : RlpItem) (i : Nat) : Except DecoderError (List Nat) :=
  match it.atIdx i with
  | .error e => .error e
  | .ok x => decodeBytesItem x

/-- `rlp.list_at(i)` for `Vec<H256>` fields. -/
def listAtHashes (it : RlpItem) (i : Nat) : Except DecoderError (List Nat) :=
  match it.atIdx i with
  | .error e => .error e
  | .ok x => decodeHashListItem 32 x

/-! ## Transaction model (src/src/core/transaction.rs) -/

/-- `core::types::Signature`: `v: u8`, `r: H256`, `s: H256` (numeric
values). -/
structure Sig where
  v : Nat
  r : Nat
  s : Nat
deriving DecidableEq, Repr

/-- `Transaction` (transaction.rs lines 37-54). `U256` fields are `Nat`
values; `receive_address` is the 20-byte address value. -/
structure Transaction where
  nonce : Nat
  value : Nat
  receiveAddress : Nat
  gasPrice : Nat
  gas : Nat
  data : List Nat
  signature : Option Sig
  chainId : Option Nat
deriving DecidableEq, Repr

/-- `IncludeSignature` (transaction.rs lines 22-25). -/
inductive IncludeSig where
  | without
  | withSig
deriving DecidableEq, Repr

/-- `Transaction::rlp_append_with_signature` (transaction.rs lines
350-376). The with-signature arm declares a 9-item list and then appends
TEN values (`nonce`, `gas_price`, `gas`, `receive_address`, `value`,
`data`, `chain_id.unwrap_or(0)`, and the constants `0u8`, `0u8`, `0u8`
commented r, s, v); the list closes after the ninth append, so the tenth
lands as a further top-level item. -/
def Transaction.rlpAppendWithSignature (tx : Transaction) (st : RlpStream)
    (inc : IncludeSig) : RlpStream :=
  match inc with
  | .withSig =>
    ((((((((((st.beginList 9).appendItem
      (rlpUint tx.nonce)).appendItem
      (rlpUint tx.gasPrice)).appendItem
      (rlpUint tx.gas)).appendItem
      (rlpFixed 20 tx.receiveAddress)).appendItem
      (rlpUint tx.value)).appendItem
      (.str tx.data)).appendItem
      (rlpUint (tx.chainId.getD 0))).appendItem
      (rlpUint 0)).appendItem
      (rlpUint 0)).appendItem
      (rlpUint 0)
  | .without =>
    ((((((st.beginList 6).appendItem
      (rlpUint tx.nonce)).appendItem
      (rlpUint tx.gasPrice)).appendItem
      (rlpUint tx.gas)).appendItem
      (rlpFixed 20 tx.receiveAddress)).appendItem
      (rlpUint tx.value)).appendItem
      (.str tx.data)

/-- `Transaction::rlp_bytes` (transaction.rs lines 218-222): build a fresh
stream, append, and take `out()`. -/
def Transaction.rlpOut (tx : Transaction) (inc : IncludeSig) :
    Except Unit (List RlpItem) :=
  (tx.rlpAppendWithSignature RlpStream.mkNew inc).out

/-- The Rust `?` operator on `Result<_, DecoderError>`. -/
def dbind {α β : Type} (x : Except DecoderError α)
    (f : α → Except DecoderError β) : Except DecoderError β :=
  match x with
  | .error e => .error e
  | .ok a => f a

/-- The unsigned (6-item) branch of `impl Decodable for Transaction`
(transaction.rs lines 382-393). -/
def Transaction.decodeUnsigned (it : RlpItem) : Except DecoderError Transaction :=
  dbind (valAtUint 32 it 0) fun nonce =>
  dbind (valAtUint 32 it 1) fun gasPrice =>
  dbind (valAtUint 32 it 2) fun gas =>
  dbind (valAtHash 20 it 3) fun receiveAddress =>
  dbind (valAtUint 32 it 4) fun value =>
  dbind (valAtBytes it 5) fun data =>
    .ok { nonce := nonce, value := value, receiveAddress := receiveAddress,
          gasPrice := gasPrice, gas := gas, data := data,
          signature := none, chainId := none }

/-- The signed (9-item) branch of `impl Decodable for Transaction`
(transaction.rs lines 394-409). Field reads happen in Rust struct-literal
order; note that it reads `v` from index 9, `r` from 7 and `s` from 8. -/
def Transaction.decodeSigned (it : RlpItem) : Except DecoderError Transaction :=
  dbind (valAtUint 32 it 0) fun nonce =>
  dbind (valAtUint 32 it 1) fun gasPrice =>
  dbind (valAtUint 32 it 2) fun gas =>
  dbind (valAtHash 20 it 3) fun receiveAddress =>
  dbind (valAtUint 32 it 4) fun value =>
  dbind (valAtBytes it 5) fun data =>
  dbind (valAtUint 8 it 6) fun chainId =>
  dbind (valAtUint 1 it 9) fun v =>
  dbind (valAtHash 32 it 7) fun r =>
  dbind (valAtHash 32 it 8) fun s =>
    .ok { nonce := nonce, value := value, receiveAddress := receiveAddress,
          gasPrice := gasPrice, gas := gas, data := data,
          signature := some { v := v, r := r, s := s },
          chainId := some chainId }

/-- `impl Decodable for Transaction` (transaction.rs lines 378-414),
applied to the first item of a buffer: dispatch on `item_count`. -/
def Transaction.decode (it : RlpItem) : Except DecoderError Transaction :=
  dbind it.itemCount fun n =>
    if n = 6 then Transaction.decodeUnsigned it
    else if n = 9 then Transaction.decodeSigned it
    else .error .rlpIncorrectListLen

/-- `rlp::decode::<Transaction>` applied to the bytes produced by
`rlp_bytes(WithSignature)`: parse the first item of the buffer and run the
decoder. The outer `Except Unit` layer is the panic monad of the encoding
side. -/
def Transaction.decodeOfEncode (tx : Transaction) :
    Except Unit (Except DecoderError Transaction) :=
  match tx.rlpOut .withSig with
  | .error e => .error e
  | .ok items =>
    .ok (match rlpFirst items with
         | .error e => .error e
         | .ok it => Transaction.decode it)

/-- The nine list entries the with-signature encoder actually places inside
the declared 9-item list. -/
def Transaction.sigListItems (tx : Transaction) : List RlpItem :=
  [rlpUint tx.nonce, rlpUint tx.gasPrice, rlpUint tx.gas,
   rlpFixed 20 tx.receiveAddress, rlpUint tx.value, .str tx.data,
   rlpUint (tx.chainId.getD 0), rlpUint 0, rlpUint 0]

/-- The with-signature encoding always finishes as a 9-item list followed
by one stray top-level item (the `v` byte appended past the closed
list). -/
lemma rlpOut_withSig (tx : Transaction) :
    tx.rlpOut .withSig = .ok [.list tx.sigListItems, rlpUint 0] := by
  have e0 : RlpStream.mkNew.beginList 9 = ⟨[(9, [])], []⟩ := rfl
  have e1 : RlpStream.appendItem ⟨[(9, [])], []⟩
      (rlpUint tx.nonce) = ⟨[(9, [rlpUint tx.nonce])], []⟩ := rfl
  have e2 : RlpStream.appendItem ⟨[(9, [rlpUint tx.nonce])], []⟩
      (rlpUint tx.gasPrice) = ⟨[(9, [rlpUint tx.nonce, rlpUint tx.gasPrice])], []⟩ := rfl
  have e3 : RlpStream.appendItem ⟨[(9, [rlpUint tx.nonce, rlpUint tx.gasPrice])], []⟩
      (rlpUint tx.gas) = ⟨[(9, [rlpUint tx.nonce, rlpUint tx.gasPrice, rlpUint tx.gas])], []⟩ := rfl
  have e4 : RlpStream.appendItem ⟨[(9, [rlpUint tx.nonce, rlpUint tx.gasPrice, rlpUint tx.gas])], []⟩
      (rlpFixed 20 tx.receiveAddress) = ⟨[(9, [rlpUint tx.nonce, rlpUint tx.gasPrice, rlpUint tx.gas, rlpFixed 20 tx.receiveAddress])], []⟩ := rfl
  have e5 : RlpStream.appendItem ⟨[(9, [rlpUint tx.nonce, rlpUint tx.gasPrice, rlpUint tx.gas, rlpFixed 20 tx.receiveAddress])], []⟩
      (rlpUint tx.value) = ⟨[(9, [rlpUint tx.nonce, rlpUint tx.gasPrice, rlpUint tx.gas, rlpFixed 20 tx.receiveAddress, rlpUint tx.value])], []⟩ := rfl
  have e6 : RlpStream.appendItem ⟨[(9, [rlpUint tx.nonce, rlpUint tx.gasPrice, rlpUint tx.gas, rlpFixed 20 tx.receiveAddress, rlpUint tx.value])], []⟩
      (.str tx.data) = ⟨[(9, [rlpUint tx.nonce, rlpUint tx.gasPrice, rlpUint tx.gas, rlpFixed 20 tx.receiveAddress, rlpUint tx.value, .str tx.data])], []⟩ := rfl
  have e7 : RlpStream.appendItem ⟨[(9, [rlpUint tx.nonce, rlpUint tx.gasPrice, rlpUint tx.gas, rlpFixed 20 tx.receiveAddress, rlpUint tx.value, .str tx.data])], []⟩
      (rlpUint (tx.chainId.getD 0)) = ⟨[(9, [rlpUint tx.nonce, rlpUint tx.gasPrice, rlpUint tx.gas, rlpFixed 20 tx.receiveAddress, rlpUint tx.value, .str tx.data, rlpUint (tx.chainId.getD 0)])], []⟩ := rfl
  have e8 : RlpStream.appendItem ⟨[(9, [rlpUint tx.nonce, rlpUint tx.gasPrice, rlpUint tx.gas, rlpFixed 20 tx.receiveAddress, rlpUint tx.value, .str tx.data, rlpUint (tx.chainId.getD 0)])], []⟩
      (rlpUint 0) = ⟨[(9, [rlpUint tx.nonce, rlpUint tx.gasPrice, rlpUint tx.gas, rlpFixed 20 tx.receiveAddress, rlpUint tx.value, .str tx.data, rlpUint (tx.chainId.getD 0), rlpUint 0])], []⟩ := rfl
  have e9 : RlpStream.appendItem ⟨[(9, [rlpUint tx.nonce, rlpUint tx.gasPrice, rlpUint tx.gas, rlpFixed 20 tx.receiveAddress, rlpUint tx.value, .str tx.data, rlpUint (tx.chainId.getD 0), rlpUint 0])], []⟩
      (rlpUint 0) = ⟨[], [.list [rlpUint tx.nonce, rlpUint tx.gasPrice, rlpUint tx.gas, rlpFixed 20 tx.receiveAddress, rlpUint tx.value, .str tx.data, rlpUint (tx.chainId.getD 0), rlpUint 0, rlpUint 0]]⟩ := rfl
  have e10 : RlpStream.appendItem ⟨[], [.list [rlpUint tx.nonce, rlpUint tx.gasPrice, rlpUint tx.gas, rlpFixed 20 tx.receiveAddress, rlpUint tx.value, .str tx.data, rlpUint (tx.chainId.getD 0), rlpUint 0, rlpUint 0]]⟩
      (rlpUint 0) = ⟨[], [.list [rlpUint tx.nonce, rlpUint tx.gasPrice, rlpUint tx.gas, rlpFixed 20 tx.receiveAddress, rlpUint tx.value, .str tx.data, rlpUint (tx.chainId.getD 0), rlpUint 0, rlpUint 0], rlpUint 0]⟩ := rfl
  unfold Transaction.rlpOut Transaction.rlpAppendWithSignature
  rw [e0, e1, e2, e3, e4, e5, e6, e7, e8, e9, e10]
  rfl

/-- `Result::is_err`. -/
def eIsErr {α β : Type} : Except α β → Bool
  | .error _ => true
  | .ok _ => false

/-- A `dbind` whose continuation always errors is an error. -/
lemma dbind_isErr {α β : Type} (x : Except DecoderError α)
    (f : α → Except DecoderError β) (h : ∀ a, eIsErr (f a) = true) :
    eIsErr (dbind x f) = true := by
  cases x with
  | error e => rfl
  | ok a => exact h a

/-- Decoding the 9-item list emitted by the with-signature encoder always
fails: the decoder's signed branch reads index 9 of a 9-item list. -/
lemma decode_of_nine_item_list_isErr (tx : Transaction) :
    eIsErr (Transaction.decode (.list tx.sigListItems)) = true := by
  show eIsErr (Transaction.decodeSigned (.list tx.sigListItems)) = true
  refine dbind_isErr _ _ (fun nonce => ?_)
  refine dbind_isErr _ _ (fun gasPrice => ?_)
  refine dbind_isErr _ _ (fun gas => ?_)
  refine dbind_isErr _ _ (fun receiveAddress => ?_)
  refine dbind_isErr _ _ (fun value => ?_)
  refine dbind_isErr _ _ (fun data => ?_)
  refine dbind_isErr _ _ (fun chainId => ?_)
  rfl

/-- C3: for EVERY transaction `t`, decoding the with-signature RLP encoding
of `t` fails with a decoder error instead of returning `t`: the encoder
declares a 9-item list but appends ten values (so the real `v` lands
outside the list, and the constants 0 stand in for `r`, `s`, `v`), and the
decoder then reads `val_at(9)` — the tenth entry of a list holding nine —
which errors with `RlpIsTooShort`. This refutes the round-trip claim at
every input. -/
theorem c3_transaction_roundtrip_always_fails (tx : Transaction) :
    ∃ res : Except DecoderError Transaction,
      tx.decodeOfEncode = .ok res ∧ eIsErr res = true := by
  refine ⟨Transaction.decode (.list tx.sigListItems), ?_,
    decode_of_nine_item_list_isErr tx⟩
  unfold Transaction.decodeOfEncode
  rw [rlpOut_withSig]
  rfl

/-! ## Block model (src/src/core/block.rs) -/

/-- `Block` (block.rs lines 10-33). `from` is a Lean keyword, so the field
is named `fromAddr`. -/
structure Block where
  fromAddr : Nat
  previous : Nat
  parents : List Nat
  links : List Nat
  approves : List Nat
  lastSummary : Nat
  lastSummaryBlock : Nat
  lastStableBlock : Nat
  execTimestamp : Nat
  gasUsed : Nat
  signature : Sig
deriving DecidableEq, Repr

/-- `impl Encodable for Block` (block.rs lines 155-172): `begin_list(12)`
followed by THIRTEEN appends (`from`, `previous`, the three hash lists,
the three summary hashes, `exec_timestamp`, `gas_used`, then `v`, `r`,
`s`); the list closes after the twelfth append (`r`), so `s` lands as a
further top-level item. -/
def Block.rlpAppend (b : Block) (st : RlpStream) : RlpStream :=
  (((((((((((((st.beginList 12).appendItem
    (rlpFixed 20 b.fromAddr)).appendItem
    (rlpFixed 32 b.previous)).appendHashList
    b.parents).appendHashList
    b.links).appendHashList
    b.approves).appendItem
    (rlpFixed 32 b.lastSummary)).appendItem
    (rlpFixed 32 b.lastSummaryBlock)).appendItem
    (rlpFixed 32 b.lastStableBlock)).appendItem
    (rlpUint b.execTimestamp)).appendItem
    (rlpUint b.gasUsed)).appendItem
    (rlpUint b.signature.v)).appendItem
    (rlpFixed 32 b.signature.r)).appendItem
    (rlpFixed 32 b.signature.s)

/-- `Block::rlp_bytes` (block.rs lines 72-76). -/
def Block.rlpOut (b : Block) : Except Unit (List RlpItem) :=
  (b.rlpAppend RlpStream.mkNew).out

/-- The field reads of `impl Decodable for Block` (block.rs lines
180-196), in Rust struct-literal order; the signature reads `v`, `r`, `s`
from indices 10, 11 and 12. -/
def Block.decodeFields (it : RlpItem) : Except DecoderError Block :=
  dbind (valAtHash 20 it 0) fun fromAddr =>
  dbind (valAtHash 32 it 1) fun previous =>
  dbind (listAtHashes it 2) fun parents =>
  dbind (listAtHashes it 3) fun links =>
  dbind (listAtHashes it 4) fun approves =>
  dbind (valAtHash 32 it 5) fun lastSummary =>
  dbind (valAtHash 32 it 6) fun lastSummaryBlock =>
  dbind (valAtHash 32 it 7) fun lastStableBlock =>
  dbind (valAtUint 8 it 8) fun execTimestamp =>
  dbind (valAtUint 32 it 9) fun gasUsed =>
  dbind (valAtUint 1 it 10) fun v =>
  dbind (valAtHash 32 it 11) fun r =>
  dbind (valAtHash 32 it 12) fun s =>
    .ok { fromAddr := fromAddr, previous := previous, parents := parents,
          links := links, approves := approves, lastSummary := lastSummary,
          lastSummaryBlock := lastSummaryBlock,
          lastStableBlock := lastStableBlock, execTimestamp := execTimestamp,
          gasUsed := gasUsed, signature := { v := v, r := r, s := s } }

/-- `impl Decodable for Block` (block.rs lines 174-198): reject unless
`item_count() == 12`, then read the fields. -/
def Block.decode (it : RlpItem) : Except DecoderError Block :=
  dbind it.itemCount fun n =>
    if n ≠ 12 then .error .rlpIncorrectListLen
    else Block.decodeFields it

/-- `rlp::decode::<Block>` applied to the bytes of `Block::rlp_bytes`. -/
def Block.decodeOfEncode (b : Block) :
    Except Unit (Except DecoderError Block) :=
  match b.rlpOut with
  | .error e => .error e
  | .ok items =>
    .ok (match rlpFirst items with
         | .error e => .error e
         | .ok it => Block.decode it)

/-- The twelve list entries the block encoder actually places inside the
declared 12-item list. -/
def Block.encListItems (b : Block) : List RlpItem :=
  [rlpFixed 20 b.fromAddr, rlpFixed 32 b.previous,
   .list (b.parents.map (rlpFixed 32)), .list (b.links.map (rlpFixed 32)),
   .list (b.approves.map (rlpFixed 32)), rlpFixed 32 b.lastSummary,
   rlpFixed 32 b.lastSummaryBlock, rlpFixed 32 b.lastStableBlock,
   rlpUint b.execTimestamp, rlpUint b.gasUsed, rlpUint b.signature.v,
   rlpFixed 32 b.signature.r]

/-- The block encoding always finishes as a 12-item list followed by one
stray top-level item (`signature.s`, appended past the closed list) — it
is not the claimed single 13-item list. -/
lemma block_rlpOut (b : Block) :
    b.rlpOut = .ok [.list b.encListItems, rlpFixed 32 b.signature.s] := by
  have f0 : RlpStream.mkNew.beginList 12 = ⟨[(12, [])], []⟩ := rfl
  have f1 : RlpStream.appendItem ⟨[(12, [])], []⟩
      (rlpFixed 20 b.fromAddr) = ⟨[(12, [rlpFixed 20 b.fromAddr])], []⟩ := rfl
  have f2 : RlpStream.appendItem ⟨[(12, [rlpFixed 20 b.fromAddr])], []⟩
      (rlpFixed 32 b.previous) = ⟨[(12, [rlpFixed 20 b.fromAddr, rlpFixed 32 b.previous])], []⟩ := rfl
  have f3 : RlpStream.appendItem ⟨[(12, [rlpFixed 20 b.fromAddr, rlpFixed 32 b.previous])], []⟩
      (.list (b.parents.map (rlpFixed 32))) = ⟨[(12, [rlpFixed 20 b.fromAddr, rlpFixed 32 b.previous, .list (b.parents.map (rlpFixed 32))])], []⟩ := rfl
  have f4 : RlpStream.appendItem ⟨[(12, [rlpFixed 20 b.fromAddr, rlpFixed 32 b.previous, .list (b.parents.map (rlpFixed 32))])], []⟩
      (.list (b.links.map (rlpFixed 32))) = ⟨[(12, [rlpFixed 20 b.fromAddr, rlpFixed 32 b.previous, .list (b.parents.map (rlpFixed 32)), .list (b.links.map (rlpFixed 32))])], []⟩ := rfl
  have f5 : RlpStream.appendItem ⟨[(12, [rlpFixed 20 b.fromAddr, rlpFixed 32 b.previous, .list (b.parents.map (rlpFixed 32)), .list (b.links.map (rlpFixed 32))])], []⟩
      (.list (b.approves.map (rlpFixed 32))) = ⟨[(12, [rlpFixed 20 b.fromAddr, rlpFixed 32 b.previous, .list (b.parents.map (rlpFixed 32)), .list (b.links.map (rlpFixed 32)), .list (b.approves.map (rlpFixed 32))])], []⟩ := rfl
  have f6 : RlpStream.appendItem ⟨[(12, [rlpFixed 20 b.fromAddr, rlpFixed 32 b.previous, .list (b.parents.map (rlpFixed 32)), .list (b.links.map (rlpFixed 32)), .list (b.approves.map (rlpFixed 32))])], []⟩
      (rlpFixed 32 b.lastSummary) = ⟨[(12, [rlpFixed 20 b.fromAddr, rlpFixed 32 b.previous, .list (b.parents.map (rlpFixed 32)), .list (b.links.map (rlpFixed 32)), .list (b.approves.map (rlpFixed 32)), rlpFixed 32 b.lastSummary])], []⟩ := rfl
  have f7 : RlpStream.appendItem ⟨[(12, [rlpFixed 20 b.fromAddr, rlpFixed 32 b.previous, .list (b.parents.map (rlpFixed 32)), .list (b.links.map (rlpFixed 32)), .list (b.approves.map (rlpFixed 32)), rlpFixed 32 b.lastSummary])], []⟩
      (rlpFixed 32 b.lastSummaryBlock) = ⟨[(12, [rlpFixed 20 b.fromAddr, rlpFixed 32 b.previous, .list (b.parents.map (rlpFixed 32)), .list (b.links.map (rlpFixed 32)), .list (b.approves.map (rlpFixed 32)), rlpFixed 32 b.lastSummary, rlpFixed 32 b.lastSummaryBlock])], []⟩ := rfl
  have f8 : RlpStream.appendItem ⟨[(12, [rlpFixed 20 b.fromAddr, rlpFixed 32 b.previous, .list (b.parents.map (rlpFixed 32)), .list (b.links.map (rlpFixed 32)), .list (b.approves.map (rlpFixed 32)), rlpFixed 32 b.lastSummary, rlpFixed 32 b.lastSummaryBlock])], []⟩
      (rlpFixed 32 b.lastStableBlock) = ⟨[(12, [rlpFixed 20 b.fromAddr, rlpFixed 32 b.previous, .list (b.parents.map (rlpFixed 32)), .list (b.links.map (rlpFixed 32)), .list (b.approves.map (rlpFixed 32)), rlpFixed 32 b.lastSummary, rlpFixed 32 b.lastSummaryBlock, rlpFixed 32 b.lastStableBlock])], []⟩ := rfl
  have f9 : RlpStream.appendItem ⟨[(12, [rlpFixed 20 b.fromAddr, rlpFixed 32 b.previous, .list (b.parents.map (rlpFixed 32)), .list (b.links.map (rlpFixed 32)), .list (b.approves.map (rlpFixed 32)), rlpFixed 32 b.lastSummary, rlpFixed 32 b.lastSummaryBlock, rlpFixed 32 b.lastStableBlock])], []⟩
      (rlpUint b.execTimestamp) = ⟨[(12, [rlpFixed 20 b.fromAddr, rlpFixed 32 b.previous, .list (b.parents.map (rlpFixed 32)), .list (b.links.map (rlpFixed 32)), .list (b.approves.map (rlpFixed 32)), rlpFixed 32 b.lastSummary, rlpFixed 32 b.lastSummaryBlock, rlpFixed 32 b.lastStableBlock, rlpUint b.execTimestamp])], []⟩ := rfl
  have f10 : RlpStream.appendItem ⟨[(12, [rlpFixed 20 b.fromAddr, rlpFixed 32 b.previous, .list (b.parents.map (rlpFixed 32)), .list (b.links.map (rlpFixed 32)), .list (b.approves.map (rlpFixed 32)), rlpFixed 32 b.lastSummary, rlpFixed 32 b.lastSummaryBlock, rlpFixed 32 b.lastStableBlock, rlpUint b.execTimestamp])], []⟩
      (rlpUint b.gasUsed) = ⟨[(12, [rlpFixed 20 b.fromAddr, rlpFixed 32 b.previous, .list (b.parents.map (rlpFixed 32)), .list (b.links.map (rlpFixed 32)), .list (b.approves.map (rlpFixed 32)), rlpFixed 32 b.lastSummary, rlpFixed 32 b.lastSummaryBlock, rlpFixed 32 b.lastStableBlock, rlpUint b.execTimestamp, rlpUint b.gasUsed])], []⟩ := rfl
  have f11 : RlpStream.appendItem ⟨[(12, [rlpFixed 20 b.fromAddr, rlpFixed 32 b.previous, .list (b.parents.map (rlpFixed 32)), .list (b.links.map (rlpFixed 32)), .list (b.approves.map (rlpFixed 32)), rlpFixed 32 b.lastSummary, rlpFixed 32 b.lastSummaryBlock, rlpFixed 32 b.lastStableBlock, rlpUint b.execTimestamp, rlpUint b.gasUsed])], []⟩
      (rlpUint b.signature.v) = ⟨[(12, [rlpFixed 20 b.fromAddr, rlpFixed 32 b.previous, .list (b.parents.map (rlpFixed 32)), .list (b.links.map (rlpFixed 32)), .list (b.approves.map (rlpFixed 32)), rlpFixed 32 b.lastSummary, rlpFixed 32 b.lastSummaryBlock, rlpFixed 32 b.lastStableBlock, rlpUint b.execTimestamp, rlpUint b.gasUsed, rlpUint b.signature.v])], []⟩ := rfl
  have f12 : RlpStream.appendItem ⟨[(12, [rlpFixed 20 b.fromAddr, rlpFixed 32 b.previous, .list (b.parents.map (rlpFixed 32)), .list (b.links.map (rlpFixed 32)), .list (b.approves.map (rlpFixed 32)), rlpFixed 32 b.lastSummary, rlpFixed 32 b.lastSummaryBlock, rlpFixed 32 b.lastStableBlock, rlpUint b.execTimestamp, rlpUint b.gasUsed, rlpUint b.signature.v])], []⟩
      (rlpFixed 32 b.signature.r) = ⟨[], [.list [rlpFixed 20 b.fromAddr, rlpFixed 32 b.previous, .list (b.parents.map (rlpFixed 32)), .list (b.links.map (rlpFixed 32)), .list (b.approves.map (rlpFixed 32)), rlpFixed 32 b.lastSummary, rlpFixed 32 b.lastSummaryBlock, rlpFixed 32 b.lastStableBlock, rlpUint b.execTimestamp, rlpUint b.gasUsed, rlpUint b.signature.v, rlpFixed 32 b.signature.r]]⟩ := rfl
  have f13 : RlpStream.appendItem ⟨[], [.list [rlpFixed 20 b.fromAddr, rlpFixed 32 b.previous, .list (b.parents.map (rlpFixed 32)), .list (b.links.map (rlpFixed 32)), .list (b.approves.map (rlpFixed 32)), rlpFixed 32 b.lastSummary, rlpFixed 32 b.lastSummaryBlock, rlpFixed 32 b.lastStableBlock, rlpUint b.execTimestamp, rlpUint b.gasUsed, rlpUint b.signature.v, rlpFixed 32 b.signature.r]]⟩
      (rlpFixed 32 b.signature.s) = ⟨[], [.list [rlpFixed 20 b.fromAddr, rlpFixed 32 b.previous, .list (b.parents.map (rlpFixed 32)), .list (b.links.map (rlpFixed 32)), .list (b.approves.map (rlpFixed 32)), rlpFixed 32 b.lastSummary, rlpFixed 32 b.lastSummaryBlock, rlpFixed 32 b.lastStableBlock, rlpUint b.execTimestamp, rlpUint b.gasUsed, rlpUint b.signature.v, rlpFixed 32 b.signature.r], rlpFixed 32 b.signature.s]⟩ := rfl
  unfold Block.rlpOut Block.rlpAppend RlpStream.appendHashList
  rw [f0, f1, f2, f3, f4, f5, f6, f7, f8, f9, f10, f11, f12, f13]
  rfl

/-- Decoding the 12-item list emitted by the block encoder always fails:
the decoder checks `item_count == 12` and then reads index 12, the
thirteenth entry of a list that holds only twelve. -/
lemma block_decode_of_enc_isErr (b : Block) :
    eIsErr (Block.decode (.list b.encListItems)) = true := by
  show eIsErr (Block.decodeFields (.list b.encListItems)) = true
  refine dbind_isErr _ _ (fun fromAddr => ?_)
  refine dbind_isErr _ _ (fun previous => ?_)
  refine dbind_isErr _ _ (fun parents => ?_)
  refine dbind_isErr _ _ (fun links => ?_)
  refine dbind_isErr _ _ (fun approves => ?_)
  refine dbind_isErr _ _ (fun lastSummary => ?_)
  refine dbind_isErr _ _ (fun lastSummaryBlock => ?_)
  refine dbind_isErr _ _ (fun lastStableBlock => ?_)
  refine dbind_isErr _ _ (fun execTimestamp => ?_)
  refine dbind_isErr _ _ (fun gasUsed => ?_)
  refine dbind_isErr _ _ (fun v => ?_)
  refine dbind_isErr _ _ (fun r => ?_)
  rfl

/-- C4: for EVERY block `b`, the canonical encoding is NOT a single
13-item list (it is a 12-item list with `signature.s` appended after it at
the top level), and decoding that encoding fails with a decoder error
instead of returning `b`: the decoder reads `val_at(12)` of the 12-item
list, which errors with `RlpIsTooShort`. Encoding itself does succeed
without panicking, as the claim says. -/
theorem c4_block_roundtrip_always_fails (b : Block) :
    b.rlpOut = .ok [.list b.encListItems, rlpFixed 32 b.signature.s] ∧
      ∃ res : Except DecoderError Block,
        b.decodeOfEncode = .ok res ∧ eIsErr res = true := by
  refine ⟨block_rlpOut b, Block.decode (.list b.encListItems), ?_,
    block_decode_of_enc_isErr b⟩
  unfold Block.decodeOfEncode
  rw [block_rlpOut]
  rfl

/-! ## Signing and sender recovery (src/src/core/transaction.rs)

`sign_with_secret` calls `secp256k1::sign_ecdsa_recoverable`, which yields
a recovery id in {0, 1, 2, 3} and the 32-byte `r`, `s` scalars; those are
taken as parameters here. What the source then computes itself — the `v`
byte stored in the signature, and the recovery-id value that
`recover_sender_from_signature` later derives from `v` — is modelled
exactly, including the `as u8` / `as i32` casts. -/

/-- `core::types::CHAIN_ID` (= 970). -/
def CHAIN_ID : Nat := 970

/-- `Transaction::new` (transaction.rs lines 57-76): unsigned message-call
transaction with `chain_id = Some(CHAIN_ID)`. -/
def Transaction.mkNew (value gasPrice gas dest : Nat) (data : List Nat)
    (nonce : Nat) : Transaction :=
  { nonce := nonce, value := value, receiveAddress := dest,
    gasPrice := gasPrice, gas := gas, data := data, signature := none,
    chainId := some CHAIN_ID }

/-- Rust `x as u8` on a `u64` value: truncation mod 2^8 (the `u64`
arithmetic producing `x` itself wraps mod 2^64). -/
def asU8 (n : Nat) : Nat := n % 2 ^ 8

/-- Rust `x as i32` on a `u64` value: truncate to 32 bits, reinterpret as
two's-complement. -/
def asI32 (n : Nat) : Int :=
  let m : Nat := n % 2 ^ 32
  if m < 2 ^ 31 then (m : Int) else (m : Int) - 2 ^ 32

/-- The `v` byte computed by `sign_with_secret` (transaction.rs line 253):
`recovery_id.to_i32() as u8 + 27 + (chain_id * 2 + 35) as u8`, in
wrapping `u8` arithmetic. -/
def signV (recid chainId : Nat) : Nat :=
  (asU8 recid + 27 + asU8 ((chainId * 2 + 35) % 2 ^ 64)) % 2 ^ 8

/-- The recovery-id value computed by `recover_sender_from_signature`
(transaction.rs line 142): `sig.v as i32 - 27 - (chain_id * 2 + 35) as
i32`, in `i32` arithmetic. -/
def recoveryIdValue (v chainId : Nat) : Int :=
  (v : Int) - 27 - asI32 ((chainId * 2 + 35) % 2 ^ 64)

/-- `Transaction::sign_with_secret` (transaction.rs lines 225-262), given
the `(recovery_id, r, s)` produced by the external secp256k1 signing
call: store the signature with the computed `v`. -/
def Transaction.signWithSecret (tx : Transaction) (recid r s : Nat) :
    Transaction :=
  { tx with
    signature := (some ⟨signV recid (tx.chainId.getD 1), r, s⟩ : Option Sig) }

/-- `Transaction::recover_sender_from_signature` (transaction.rs lines
129-164) up to `RecoveryId::from_i32`, which accepts exactly the values 0
through 3. `cont` stands for the remaining external pipeline
(`from_compact`, `recover_ecdsa`, Keccak-256, trailing-20-byte address),
which runs only when the recovery id is accepted. (The earlier
`Message::from_digest_slice` never fails: the hash is always 32 bytes.) -/
def Transaction.recoverSender (tx : Transaction) (sig : Sig)
    (cont : Nat → Except OlError Nat) : Except OlError Nat :=
  let chainId := tx.chainId.getD 1
  let rv := recoveryIdValue sig.v chainId
  if 0 ≤ rv ∧ rv ≤ 3 then cont rv.toNat
  else .error (.invalidTransaction "Invalid recovery ID")

/-- `Transaction::sender` (transaction.rs lines 119-126). -/
def Transaction.sender (tx : Transaction)
    (cont : Nat → Except OlError Nat) : Except OlError Nat :=
  match tx.signature with
  | some sig => tx.recoverSender sig cont
  | none => .error (.invalidTransaction "Transaction is unsigned")

/-- C2: sign-then-recover FAILS for the default chain id 970. The sign
side truncates `(2·970 + 35) = 1975` to the u8 value 183 and stores
`v = recid + 210`; the recover side subtracts the full value, computing
`recid + 210 - 27 - 1975 = recid - 1792`, which is never a valid recovery
id, so `sender()` always returns the Invalid-recovery-ID error — for any
signed transaction, any recovery id the library can produce, and
regardless of what the downstream recovery pipeline (`cont`) would
return. This refutes `sender(sign(t, sk)) = address_of(sk)`. -/
theorem c2_sign_then_recover_fails (tx : Transaction) (recid r s : Nat)
    (hchain : tx.chainId = some 970) (hrecid : recid < 4)
    (cont : Nat → Except OlError Nat) :
    (tx.signWithSecret recid r s).sender cont =
      .error (.invalidTransaction "Invalid recovery ID") := by
  unfold Transaction.sender Transaction.signWithSecret
    Transaction.recoverSender
  simp only [hchain]
  interval_cases recid <;> rfl

/-- C2 witness: the spec's sign-and-recover transaction (nonce 0, value
1000, gas price 20 gwei, gas 21000, chain id 970), signed with recovery
id 0, fails to recover its sender. -/
theorem c2_sign_then_recover_fails_witness :
    ((Transaction.mkNew 1000 20000000000 21000 66 [] 0).signWithSecret
        0 1 1).sender (fun _ => .ok 0) =
      .error (.invalidTransaction "Invalid recovery ID") :=
  c2_sign_then_recover_fails (Transaction.mkNew 1000 20000000000 21000 66 [] 0)
    0 1 1 (by rfl) (by decide) (fun _ => .ok 0)

/-! ## Precompiled contracts (src/src/evm/precompiled.rs)

The SHA3-256 and RIPEMD-160 digests come from external crates and are
passed in as abstract functions; no modelled path evaluates them. `BigUint`
arithmetic is `Nat` arithmetic, except that `BigUint` subtraction panics
on underflow, modelled by `bsub` / the `Except Unit` panic layer. -/

/-- Panic propagation: a panic (`Except.error ()`) in a subcomputation
aborts the whole call. -/
def pbind {α β : Type} (x : Except Unit α) (f : α → Except Unit β) :
    Except Unit β :=
  match x with
  | .error e => .error e
  | .ok a => f a

/-- `BigUint` subtraction, which panics when the subtrahend is larger. -/
def bsub (a b : Nat) : Except Unit Nat :=
  if b ≤ a then .ok (a - b) else .error ()

/-- `BigUint::to_bytes_be`, which returns `[0]` for zero. -/
def bigUintBEBytes (n : Nat) : List Nat :=
  if n = 0 then [0] else natBEBytes n

/-- The BN254 base field modulus used by the 0x06/0x07 precompiles. -/
def BN254_P : Nat :=
  21888242871839275222246405745257275088696311157297823662689037894645226208583

/-- `is_point_on_curve` (precompiled.rs lines 282-289):
`y² ≡ x³ + 3 (mod p)`. -/
def is_point_on_curve (x y p : Nat) : Bool :=
  decide ((y * y) % p = ((x * x * x) % p + 3) % p)

/-- The `while !r.is_zero()` loop of `mod_inverse` (precompiled.rs lines
385-394), on the `BigUint` state `(old_r, r, old_s, s)`. Each iteration
computes `quotient = old_r / r`, replaces `(old_r, r)` by
`(r, old_r - quotient·r)` (never an underflow, since `quotient·r ≤
old_r`), and replaces `(old_s, s)` by `(s, old_s - quotient·s)` — an
unsigned subtraction that panics as soon as `quotient·s > old_s`, which
the `Except.error ()` branch models. -/
def modInverseLoop (old_r r old_s s : Nat) : Except Unit (Nat × Nat) :=
  if _hr : r = 0 then .ok (old_r, old_s)
  else
    let q := old_r / r
    if q * s ≤ old_s then
      modInverseLoop r (old_r - q * r) s (old_s - q * s)
    else .error ()
termination_by r
decreasing_by
  simp_wf
  have h1 := Nat.div_add_mod old_r r
  have h2 := Nat.mod_lt old_r (Nat.pos_of_ne_zero _hr)
  have h3 : old_r / r * r = r * (old_r / r) := Nat.mul_comm _ _
  omega

/-- `mod_inverse` (precompiled.rs lines 375-405). The trailing
`old_s < BigUint::zero()` test can never hold for an unsigned value and
is kept as written. -/
def mod_inverse (a m : Nat) : Except Unit (Option Nat) :=
  if a = 0 then .ok none
  else
    pbind (modInverseLoop a m 1 0) fun res =>
      if res.1 > 1 then .ok none
      else if res.2 < 0 then .ok (some (res.2 + m))
      else .ok (some res.2)

/-- `ec_double` (precompiled.rs lines 326-343). `x + p - x3` cannot
underflow (`x3 < p`), but `slope² + p - 2x` and the final `… + p - y`
can, since the input coordinates are not reduced mod `p`. -/
def ec_double (x y p : Nat) : Except Unit (Option (Nat × Nat)) :=
  if y = 0 then .ok (some (0, 0))
  else
    let num := (3 * x * x) % p
    let den := (2 * y) % p
    pbind (mod_inverse den p) fun invOpt =>
      match invOpt with
      | none => .ok none
      | some inv =>
        let slope := (num * inv) % p
        pbind (bsub (slope * slope + p) (2 * x)) fun d =>
          let x3 := d % p
          pbind (bsub (slope * (x + p - x3) + p) y) fun dy =>
            .ok (some (x3, dy % p))

/-- `ec_add` (precompiled.rs lines 292-323). The two successive
subtractions `slope² + p - x1 - x2` panic exactly when
`x1 + x2 > slope² + p`, modelled as one `bsub`. -/
def ec_add (x1 y1 x2 y2 p : Nat) : Except Unit (Option (Nat × Nat)) :=
  if x1 = 0 ∧ y1 = 0 then .ok (some (x2, y2))
  else if x2 = 0 ∧ y2 = 0 then .ok (some (x1, y1))
  else if x1 = x2 then
    if y1 = y2 then ec_double x1 y1 p
    else .ok (some (0, 0))
  else
    pbind (bsub (y2 + p) y1) fun dn =>
    pbind (bsub (x2 + p) x1) fun dd =>
      let num := dn % p
      let den := dd % p
      pbind (mod_inverse den p) fun invOpt =>
        match invOpt with
        | none => .ok none
        | some inv =>
          let slope := (num * inv) % p
          pbind (bsub (slope * slope + p) (x1 + x2)) fun d =>
            let x3 := d % p
            pbind (bsub (slope * (x1 + p - x3) + p) y1) fun dy =>
              .ok (some (x3, dy % p))

/-- `ec_mul` (precompiled.rs lines 346-372): double-and-add over the bits
of the scalar, carrying the accumulated point and the addend. -/
def ecMulLoop (rx ry ax ay scalar p : Nat) : Except Unit (Option (Nat × Nat)) :=
  if _hs : scalar = 0 then .ok (some (rx, ry))
  else
    pbind
      (if scalar % 2 = 1 then
        if rx = 0 ∧ ry = 0 then .ok (some (ax, ay))
        else ec_add rx ry ax ay p
       else .ok (some (rx, ry))) fun racc =>
    match racc with
    | none => .ok none
    | some (rx2, ry2) =>
      pbind (ec_double ax ay p) fun dbl =>
        match dbl with
        | none => .ok none
        | some (ax2, ay2) => ecMulLoop rx2 ry2 ax2 ay2 (scalar / 2) p
termination_by scalar
decreasing_by
  exact Nat.div_lt_self (Nat.pos_of_ne_zero _hs) (by decide)

/-- `ec_mul` entry: result starts at the representation (0, 0) of the
point at infinity. -/
def ec_mul (x y k p : Nat) : Except Unit (Option (Nat × Nat)) :=
  ecMulLoop 0 0 x y k p

/-- Pack one coordinate into its 32-byte slot of the 64-byte output, as
the copy in `EcAddContract::execute` does (high bytes first; the source
right-aligns the at-most-32 `to_bytes_be` bytes in the slot). -/
def packCoord (n : Nat) : List Nat :=
  let bs := (bigUintBEBytes n).take 32
  List.replicate (32 - bs.length) 0 ++ bs

/-- `EcAddContract::execute` (precompiled.rs lines 158-207). The
`from_str_radix` of the hard-coded modulus never fails. -/
def ecAddExecute (input : List Nat) : Except Unit (List Nat) :=
  if input.length < 128 then .ok (List.replicate 64 0)
  else
    let x1 := beToNat (input.take 32)
    let y1 := beToNat ((input.drop 32).take 32)
    let x2 := beToNat ((input.drop 64).take 32)
    let y2 := beToNat ((input.drop 96).take 32)
    if !(is_point_on_curve x1 y1 BN254_P) ||
        !(is_point_on_curve x2 y2 BN254_P) then
      .ok (List.replicate 64 0)
    else
      pbind (ec_add x1 y1 x2 y2 BN254_P) fun res =>
        match res with
        | some (x3, y3) => .ok (packCoord x3 ++ packCoord y3)
        | none => .ok (List.replicate 64 0)

/-- `EcMulContract::execute` (precompiled.rs lines 213-253). -/
def ecMulExecute (input : List Nat) : Except Unit (List Nat) :=
  if input.length < 96 then .ok (List.replicate 64 0)
  else
    let x := beToNat (input.take 32)
    let y := beToNat ((input.drop 32).take 32)
    let k := beToNat ((input.drop 64).take 32)
    if !(is_point_on_curve x y BN254_P) then .ok (List.replicate 64 0)
    else
      pbind (ec_mul x y k BN254_P) fun res =>
        match res with
        | some (x3, y3) => .ok (packCoord x3 ++ packCoord y3)
        | none => .ok (List.replicate 64 0)

/-- `ModExpContract::execute` (precompiled.rs lines 95-138). -/
def modExpExecute (input : List Nat) : Except Unit (List Nat) :=
  if input.length < 96 then .ok (List.replicate 32 0)
  else
    let baseLen := beToNat (input.take 4)
    let expLen := beToNat ((input.drop 4).take 4)
    let modLen := beToNat ((input.drop 8).take 4)
    if input.length < 32 + baseLen + expLen + modLen then
      .ok (List.replicate 32 0)
    else
      let base := beToNat ((input.drop 32).take baseLen)
      let exponent := beToNat ((input.drop (32 + baseLen)).take expLen)
      let modulus := beToNat ((input.drop (32 + baseLen + expLen)).take modLen)
      if modulus = 0 then .ok (List.replicate modLen 0)
      else
        let result := base ^ exponent % modulus
        let rb := bigUintBEBytes result
        .ok (List.replicate (modLen - rb.length) 0 ++ rb)

/-- The nine precompiled contracts (precompiled.rs), keyed by the
registry. -/
inductive Precompiled where
  | ecrecover
  | sha256c
  | ripemd160c
  | identity
  | modexp
  | ecadd
  | ecmul
  | ecpairing
  | blake2f
deriving DecidableEq, Repr

/-- The external digest functions used by the 0x02 / 0x03 contracts (the
source's 0x02 computes SHA3-256, not SHA-256), and the Keccak-based
address derivation of `calculate_contract_address`. -/
structure ExternalCrypto where
  sha3of : List Nat → List Nat
  ripemdOf : List Nat → List Nat
  keccakAddrOf : List Nat → Nat

/-- `create_precompiled_registry` (precompiled.rs lines 431-446): the
contract at `Address::from([0x0k; 20])` — the byte `k` repeated over all
20 bytes. -/
def repAddr (b : Nat) : Nat := beToNat (List.replicate 20 b)

/-- Registry lookup by address. -/
def registryLookup (addr : Nat) : Option Precompiled :=
  if addr = repAddr 1 then some .ecrecover
  else if addr = repAddr 2 then some .sha256c
  else if addr = repAddr 3 then some .ripemd160c
  else if addr = repAddr 4 then some .identity
  else if addr = repAddr 5 then some .modexp
  else if addr = repAddr 6 then some .ecadd
  else if addr = repAddr 7 then some .ecmul
  else if addr = repAddr 8 then some .ecpairing
  else if addr = repAddr 9 then some .blake2f
  else none

/-- Per-contract `gas_cost` (all pure except BLAKE2F, whose read of
`input[212..216]` goes out of bounds — a panic — when the length is 213,
214 or 215). -/
def precompiledGasCost : Precompiled → List Nat → Except Unit Nat
  | .ecrecover, _ => .ok 3000
  | .sha256c, input => .ok (60 + (input.length / 32) * 12)
  | .ripemd160c, input => .ok (600 + (input.length / 32) * 120)
  | .identity, input => .ok (15 + (input.length / 32) * 3)
  | .modexp, input =>
    if input.length < 96 then .ok 200
    else
      let baseLen := beToNat (input.take 4)
      let expLen := beToNat ((input.drop 4).take 4)
      let modLen := beToNat ((input.drop 8).take 4)
      .ok (200 + ((baseLen + modLen) * 50 + expLen * 10))
  | .ecadd, _ => .ok 150
  | .ecmul, _ => .ok 6000
  | .ecpairing, input => .ok (45000 + (input.length / 192) * 34000)
  | .blake2f, input =>
    if input.length < 213 then .ok 0
    else if input.length < 216 then .error ()
    else .ok (beToNat ((input.drop 212).take 4))

/-- Per-contract `execute`. ECRECOVER, ECPAIRING and BLAKE2F are the
source's placeholder bodies. -/
def precompiledExecute (crypto : ExternalCrypto) :
    Precompiled → List Nat → Except Unit (List Nat)
  | .ecrecover, _ => .ok (List.replicate 32 0)
  | .sha256c, input => .ok (crypto.sha3of input)
  | .ripemd160c, input => .ok (List.replicate 12 0 ++ crypto.ripemdOf input)
  | .identity, input => .ok input
  | .modexp, input => modExpExecute input
  | .ecadd, input => ecAddExecute input
  | .ecmul, input => ecMulExecute input
  | .ecpairing, input =>
    if input.length < 192 then .ok (List.replicate 32 0)
    else .ok (List.replicate 31 0 ++ [1])
  | .blake2f, input =>
    if input.length < 213 then .ok (List.replicate 64 0)
    else .ok (List.replicate 64 0)

/-! ### C7: identity precompile gas -/

/-- C7 counterexample: on the spec's own 4-byte input the identity gas
cost is 15, not the claimed `15 + 3·⌈4/32⌉ = 18`: the code divides with
floor, not ceiling. -/
theorem c7_identity_gas_counterexample :
    precompiledGasCost .identity [222, 173, 190, 239] = .ok 15 ∧
      ¬ (precompiledGasCost .identity [222, 173, 190, 239] = .ok 18) := by
  decide

/-- C7 (amended): for every input, the identity precompile charges
`15 + 3·⌊len/32⌋` gas (floor division) and returns the input unchanged;
in particular the 4-byte input [0xde, 0xad, 0xbe, 0xef] costs 15, not
18. -/
theorem c7_identity_gas_floor (crypto : ExternalCrypto) (input : List Nat) :
    precompiledGasCost .identity input = .ok (15 + input.length / 32 * 3) ∧
      precompiledExecute crypto .identity input = .ok input :=
  ⟨rfl, rfl⟩

/-! ### C10: the extended-Euclidean helper panics, so ECADD is not total -/

/-- For every denominator `0 < a < m`, `mod_inverse(a, m)` panics at the
second loop iteration: after the first iteration the state is
`(old_r, r, old_s, s) = (m, a, 0, 1)`, and the update
`s := old_s - quotient·s = 0 - (m / a)·1` underflows the unsigned
subtraction, since `m / a ≥ 1`. -/
lemma mod_inverse_panics (a m : Nat) (ha : 0 < a) (ham : a < m) :
    mod_inverse a m = .error () := by
  have ha0 : a ≠ 0 := Nat.pos_iff_ne_zero.mp ha
  have hm0 : m ≠ 0 := by omega
  have step1 : modInverseLoop a m 1 0 = modInverseLoop m a 0 1 := by
    rw [modInverseLoop]
    rw [dif_neg hm0]
    have hq : a / m = 0 := Nat.div_eq_of_lt ham
    simp [hq]
  have step2 : modInverseLoop m a 0 1 = .error () := by
    rw [modInverseLoop]
    rw [dif_neg ha0]
    have hq : 1 ≤ m / a := (Nat.one_le_div_iff ha).mpr (Nat.le_of_lt ham)
    have hAz : ¬ (m / a = 0) := by omega
    simp [hAz]
  unfold mod_inverse
  rw [if_neg ha0, step1, step2]
  rfl

/-- The concrete ECADD call of the claim: both 64-byte points are the
on-curve point (1, 2), i.e. the 128-byte input selects the
point-doubling path. -/
def c10Input : List Nat :=
  List.replicate 31 0 ++ [1] ++ (List.replicate 31 0 ++ [2]) ++
    (List.replicate 31 0 ++ [1]) ++ (List.replicate 31 0 ++ [2])

set_option maxRecDepth 8000 in
/-- C10: the ECADD precompile is NOT total. On the valid on-curve input
P = (1, 2) added to itself, `ec_add` takes the doubling path, whose slope
denominator `2·y = 4` is inverted by `mod_inverse` — and `mod_inverse`
underflows its unsigned Bezout-coefficient subtraction and panics for
EVERY denominator `0 < a < p`, so `execute` panics instead of returning
64 bytes. -/
theorem c10_ecadd_panics_on_valid_input :
    ecAddExecute c10Input = .error () := by
  have hdouble : ec_double 1 2 BN254_P = .error () := by
    have hmi : mod_inverse ((2 * 2) % BN254_P) BN254_P = .error () := by
      have h4 : (2 * 2) % BN254_P = 4 := by
        apply Nat.mod_eq_of_lt
        decide
      rw [h4]
      exact mod_inverse_panics 4 BN254_P (by decide) (by decide)
    unfold ec_double
    rw [if_neg (by decide : ¬ ((2 : Nat) = 0))]
    dsimp only
    rw [hmi]
    rfl
  have hadd : ec_add 1 2 1 2 BN254_P = .error () := by
    unfold ec_add
    rw [if_neg (by decide : ¬ ((1 : Nat) = 0 ∧ (2 : Nat) = 0))]
    rw [if_neg (by decide : ¬ ((1 : Nat) = 0 ∧ (2 : Nat) = 0))]
    rw [if_pos (rfl : (1 : Nat) = 1)]
    rw [if_pos (rfl : (2 : Nat) = 2)]
    exact hdouble
  unfold ecAddExecute
  rw [if_neg (by decide : ¬ (c10Input.length < 128))]
  dsimp only
  rw [show beToNat (c10Input.take 32) = 1 from by decide]
  rw [show beToNat ((c10Input.drop 32).take 32) = 2 from by decide]
  rw [show beToNat ((c10Input.drop 64).take 32) = 1 from by decide]
  rw [show beToNat ((c10Input.drop 96).take 32) = 2 from by decide]
  rw [if_neg (by decide :
    ¬ ((!(is_point_on_curve 1 2 BN254_P) ||
        !(is_point_on_curve 1 2 BN254_P)) = true))]
  rw [hadd]
  rfl

/-! ## Gas manager and executive (src/src/evm/environment.rs,
src/src/evm/executive.rs)

Only the precompile dispatch path of `Executive::execute` is modelled
concretely; the general-EVM path delegates to the external `revm` crate
and is taken as an abstract parameter. Of the `ExecutionContext` only the
`GasManager` is read on the modelled paths. -/

/-- U256 overflow bound. -/
def U256_LIMIT : Nat := 2 ^ 256

/-- `U256` addition: panics (`uint` crate) on overflow. -/
def u256Add (a b : Nat) : Except Unit Nat :=
  if a + b < U256_LIMIT then .ok (a + b) else .error ()

/-- `U256` multiplication: panics on overflow. -/
def u256Mul (a b : Nat) : Except Unit Nat :=
  if a * b < U256_LIMIT then .ok (a * b) else .error ()

/-- `U256` subtraction: panics on underflow. -/
def u256Sub (a b : Nat) : Except Unit Nat :=
  if b ≤ a then .ok (a - b) else .error ()

/-- `GasManager` (environment.rs lines 30-39). -/
structure GasManager where
  gasLimit : Nat
  gasUsed : Nat
  gasRefunded : Nat
  gasPrice : Nat
deriving DecidableEq, Repr

/-- `GasManager::new` (environment.rs lines 43-50). -/
def GasManager.mkNew (limit price : Nat) : GasManager :=
  { gasLimit := limit, gasUsed := 0, gasRefunded := 0, gasPrice := price }

/-- `GasManager::remaining_gas` (environment.rs lines 67-73). -/
def GasManager.remainingGas (g : GasManager) : Nat :=
  if g.gasLimit < g.gasUsed then 0 else g.gasLimit - g.gasUsed

/-- `GasManager::consume_gas` (environment.rs lines 53-59). -/
def GasManager.consumeGas (g : GasManager) (amount : Nat) :
    Except Unit (Except OlError GasManager) :=
  pbind (u256Add g.gasUsed amount) fun sum =>
    if g.gasLimit < sum then .ok (.error (.evmExecution "Out of gas"))
    else .ok (.ok { g with gasUsed := sum })

/-- `EvmExecutionResult` (executive.rs lines 18-34); the `logs` vector is
always empty on the modelled paths and is omitted. -/
structure EvmExecutionResult where
  gasUsed : Nat
  gasRefunded : Nat
  output : List Nat
  success : Bool
  contractAddress : Option Nat
  error : Option String
deriving DecidableEq, Repr

/-- `Executive::execute_precompiled_contract` (executive.rs lines
92-127): compute the contract's gas cost; a failed-with-out-of-gas result
when the remaining gas cannot cover it; otherwise consume the gas and run
the contract. -/
def executePrecompiled (crypto : ExternalCrypto) (g : GasManager)
    (kind : Precompiled) (data : List Nat) :
    Except Unit (Except OlError (GasManager × EvmExecutionResult)) :=
  pbind (precompiledGasCost kind data) fun cost =>
    if g.remainingGas < cost then
      .ok (.ok (g, { gasUsed := g.gasUsed, gasRefunded := g.gasRefunded,
                     output := [], success := false, contractAddress := none,
                     error := some "Out of gas" }))
    else
      pbind (g.consumeGas cost) fun cres =>
        match cres with
        | .error e => .ok (.error e)
        | .ok g2 =>
          pbind (precompiledExecute crypto kind data) fun output =>
            .ok (.ok (g2,
              { gasUsed := g2.gasUsed, gasRefunded := g2.gasRefunded,
                output := output, success := true, contractAddress := none,
                error := none }))

/-- `Executive::execute` (executive.rs lines 81-89): dispatch on the
registry; the non-precompile branch (`execute_with_revm`) is the abstract
parameter `revm`, which does not touch the gas manager. -/
def executiveExecute (crypto : ExternalCrypto)
    (revm : Transaction → Except Unit (Except OlError EvmExecutionResult))
    (g : GasManager) (tx : Transaction) :
    Except Unit (Except OlError (GasManager × EvmExecutionResult)) :=
  match registryLookup tx.receiveAddress with
  | some kind => executePrecompiled crypto g kind tx.data
  | none =>
    pbind (revm tx) fun r =>
      match r with
      | .error e => .ok (.error e)
      | .ok res => .ok (.ok (g, res))

/-! ## Transaction executor (src/src/evm/transaction_executor.rs)

The state is the `MemoryState` implementation (src/src/evm/state.rs):
balance, nonce and storage maps with absent-defaults 0. `transaction.from()`
(the recovered sender, a pure function of the transaction) is passed as
the explicit `sender` argument, and `transaction.hash()` as `hashFn`. -/

/-- Insert-or-replace, `HashMap::insert`. -/
def assocSet (l : List (Nat × Nat)) (k v : Nat) : List (Nat × Nat) :=
  match l with
  | [] => [(k, v)]
  | (k2, x) :: rest =>
    if k2 = k then (k2, v) :: rest else (k2, x) :: assocSet rest k v

/-- `MemoryState` (state.rs lines 43-47). -/
structure MemState where
  balances : List (Nat × Nat)
  nonces : List (Nat × Nat)
  storage : List ((Nat × Nat) × Nat)
deriving DecidableEq, Repr

/-- `MemoryState::new()`. -/
def MemState.empty : MemState := ⟨[], [], []⟩

/-- `get_balance` (state.rs lines 67-69): absent accounts read as 0. -/
def MemState.getBalance (st : MemState) (a : Nat) : Nat :=
  (alookup st.balances a).getD 0

/-- `set_balance`. -/
def MemState.setBalance (st : MemState) (a v : Nat) : MemState :=
  { st with balances := assocSet st.balances a v }

/-- `get_nonce`: absent accounts read as 0. -/
def MemState.getNonce (st : MemState) (a : Nat) : Nat :=
  (alookup st.nonces a).getD 0

/-- `set_nonce`. -/
def MemState.setNonce (st : MemState) (a v : Nat) : MemState :=
  { st with nonces := assocSet st.nonces a v }

/-- `exists` (state.rs lines 91-93): a balance or nonce entry is
recorded. -/
def MemState.existsAcct (st : MemState) (a : Nat) : Bool :=
  (alookup st.balances a).isSome || (alookup st.nonces a).isSome

/-- `create_account` (state.rs lines 95-98). -/
def MemState.createAccount (st : MemState) (a : Nat) : MemState :=
  { st with balances := assocSet st.balances a 0,
            nonces := assocSet st.nonces a 0 }

/-- `TransactionExecutionContext` (transaction_executor.rs lines 12-23). -/
structure TxExecContext where
  blockNumber : Nat
  timestamp : Nat
  blockHash : Nat
  blockGasLimit : Nat
  baseFee : Nat
deriving DecidableEq, Repr

/-- `TransactionExecutionContext::default()` (transaction_executor.rs
lines 267-277): 30M block gas limit, 1 gwei base fee. -/
def TxExecContext.mkDefault : TxExecContext :=
  { blockNumber := 0, timestamp := 0, blockHash := 0,
    blockGasLimit := 30000000, baseFee := 1000000000 }

/-- `TransactionExecutionResult` (transaction_executor.rs lines 27-44);
the `logs` vector is always empty and is omitted. -/
structure TxExecResult where
  transactionHash : Nat
  gasUsed : Nat
  gasPrice : Nat
  success : Bool
  output : List Nat
  contractAddress : Option Nat
  error : Option String
deriving DecidableEq, Repr

/-- Byte length of `rlp_bytes(WithoutSignature)`, used by the size
check. -/
def Transaction.rlpSizeWithout (tx : Transaction) : Except Unit Nat :=
  pbind (tx.rlpOut .without) fun items => .ok (rlpItemsBytes items).length

/-- `TransactionExecutor::validate_transaction` (transaction_executor.rs
lines 163-187): block gas limit, base fee, and 128 KiB size checks. -/
def validateTransaction (ctx : TxExecContext) (tx : Transaction) :
    Except Unit (Except OlError Unit) :=
  if ctx.blockGasLimit < tx.gas then
    .ok (.error (.invalidTransaction "Gas limit exceeds block limit"))
  else if tx.gasPrice < ctx.baseFee then
    .ok (.error (.invalidTransaction "Gas price too low"))
  else
    pbind tx.rlpSizeWithout fun size =>
      if 128 * 1024 < size then
        .ok (.error (.invalidTransaction "Transaction too large"))
      else .ok (.ok ())

/-- `TransactionExecutor::update_state_after_transaction`
(transaction_executor.rs lines 190-212): bump the sender nonce (wrapping
u64), debit `gas_used · gas_price` from the sender — the transferred
value is NOT debited — credit `value` to a non-zero recipient, and create
the recipient account if it does not exist. -/
def updateStateAfterTransaction (sender : Nat) (tx : Transaction)
    (evmGasUsed : Nat) (st : MemState) : Except Unit MemState :=
  let st1 := st.setNonce sender ((st.getNonce sender + 1) % 2 ^ 64)
  pbind (u256Mul evmGasUsed tx.gasPrice) fun gasCost =>
  pbind (u256Sub (st1.getBalance sender) gasCost) fun newBal =>
  let st2 := st1.setBalance sender newBal
  pbind
    (if tx.receiveAddress ≠ 0 then
      pbind (u256Add (st2.getBalance tx.receiveAddress) tx.value) fun rBal =>
        .ok (st2.setBalance tx.receiveAddress rBal)
     else .ok st2) fun st3 =>
  .ok (if st3.existsAcct tx.receiveAddress = false ∧ tx.receiveAddress ≠ 0
       then st3.createAccount tx.receiveAddress
       else st3)

/-- `calculate_contract_address` (transaction_executor.rs lines 215-222):
Keccak-256 of sender bytes followed by the big-endian u64 nonce
(`U256::as_u64` panics above u64::MAX, guarded by the caller below). -/
def calculateContractAddress (crypto : ExternalCrypto) (sender nonce : Nat) :
    Nat :=
  crypto.keccakAddrOf (natBEBytesPadded 20 sender ++ natBEBytesPadded 8 nonce)

/-- `TransactionExecutor::execute_transaction` (transaction_executor.rs
lines 81-132). Returns the post-call state together with the
`Result<TransactionExecutionResult>`; every early error return leaves the
state untouched, mutation happens only inside
`update_state_after_transaction`. -/
def executeTransaction (crypto : ExternalCrypto)
    (hashFn : Transaction → Nat) (sender : Nat)
    (revm : Transaction → Except Unit (Except OlError EvmExecutionResult))
    (ctx : TxExecContext) (st : MemState) (tx : Transaction) :
    Except Unit (MemState × Except OlError TxExecResult) :=
  let txHash := hashFn tx
  pbind (validateTransaction ctx tx) fun vres =>
  match vres with
  | .error e => .ok (st, .error e)
  | .ok _ =>
    let senderNonce := st.getNonce sender
    if tx.nonce ≠ senderNonce then
      .ok (st, .error (.invalidTransaction "Invalid nonce"))
    else
      let senderBalance := st.getBalance sender
      pbind (u256Mul tx.gas tx.gasPrice) fun gasTotal =>
      pbind (u256Add tx.value gasTotal) fun totalCost =>
      if senderBalance < totalCost then
        .ok (st, .error (.invalidTransaction "Insufficient balance"))
      else
        let g := GasManager.mkNew tx.gas tx.gasPrice
        pbind (executiveExecute crypto revm g tx) fun eres =>
        match eres with
        | .error e => .ok (st, .error e)
        | .ok (_, evmResult) =>
          pbind
            (if evmResult.success then
              updateStateAfterTransaction sender tx evmResult.gasUsed st
             else .ok st) fun st2 =>
          pbind
            (if tx.receiveAddress = 0 then
              if tx.nonce < 2 ^ 64 then
                .ok (some (calculateContractAddress crypto sender tx.nonce))
              else .error ()
             else .ok none) fun contractAddr =>
          .ok (st2, .ok
            { transactionHash := txHash, gasUsed := evmResult.gasUsed,
              gasPrice := tx.gasPrice, success := evmResult.success,
              output := evmResult.output, contractAddress := contractAddr,
              error := if evmResult.success then none
                       else some "Transaction execution failed" })

/-! ### C5 and C6 theorems -/

/-- The six list entries of the without-signature encoding. -/
def Transaction.unsignedListItems (tx : Transaction) : List RlpItem :=
  [rlpUint tx.nonce, rlpUint tx.gasPrice, rlpUint tx.gas,
   rlpFixed 20 tx.receiveAddress, rlpUint tx.value, .str tx.data]

/-- The without-signature encoding always finishes as a single 6-item
list. -/
lemma rlpOut_without (tx : Transaction) :
    tx.rlpOut .without = .ok [.list tx.unsignedListItems] := by
  have g0 : RlpStream.mkNew.beginList 6 = ⟨[(6, [])], []⟩ := rfl
  have g1 : RlpStream.appendItem ⟨[(6, [])], []⟩
      (rlpUint tx.nonce) = ⟨[(6, [rlpUint tx.nonce])], []⟩ := rfl
  have g2 : RlpStream.appendItem ⟨[(6, [rlpUint tx.nonce])], []⟩
      (rlpUint tx.gasPrice) = ⟨[(6, [rlpUint tx.nonce, rlpUint tx.gasPrice])], []⟩ := rfl
  have g3 : RlpStream.appendItem ⟨[(6, [rlpUint tx.nonce, rlpUint tx.gasPrice])], []⟩
      (rlpUint tx.gas) = ⟨[(6, [rlpUint tx.nonce, rlpUint tx.gasPrice, rlpUint tx.gas])], []⟩ := rfl
  have g4 : RlpStream.appendItem ⟨[(6, [rlpUint tx.nonce, rlpUint tx.gasPrice, rlpUint tx.gas])], []⟩
      (rlpFixed 20 tx.receiveAddress) = ⟨[(6, [rlpUint tx.nonce, rlpUint tx.gasPrice, rlpUint tx.gas, rlpFixed 20 tx.receiveAddress])], []⟩ := rfl
  have g5 : RlpStream.appendItem ⟨[(6, [rlpUint tx.nonce, rlpUint tx.gasPrice, rlpUint tx.gas, rlpFixed 20 tx.receiveAddress])], []⟩
      (rlpUint tx.value) = ⟨[(6, [rlpUint tx.nonce, rlpUint tx.gasPrice, rlpUint tx.gas, rlpFixed 20 tx.receiveAddress, rlpUint tx.value])], []⟩ := rfl
  have g6 : RlpStream.appendItem ⟨[(6, [rlpUint tx.nonce, rlpUint tx.gasPrice, rlpUint tx.gas, rlpFixed 20 tx.receiveAddress, rlpUint tx.value])], []⟩
      (.str tx.data) = ⟨[], [.list [rlpUint tx.nonce, rlpUint tx.gasPrice, rlpUint tx.gas, rlpFixed 20 tx.receiveAddress, rlpUint tx.value, .str tx.data]]⟩ := rfl
  unfold Transaction.rlpOut Transaction.rlpAppendWithSignature
  rw [g0, g1, g2, g3, g4, g5, g6]
  rfl

/-- `validate_transaction` never panics, and either passes or yields an
`InvalidTransaction` error. -/
lemma validateTransaction_shape (ctx : TxExecContext) (tx : Transaction) :
    validateTransaction ctx tx = .ok (.ok ()) ∨
      ∃ msg, validateTransaction ctx tx =
        .ok (.error (.invalidTransaction msg)) := by
  unfold validateTransaction
  by_cases h1 : ctx.blockGasLimit < tx.gas
  · exact Or.inr ⟨_, by rw [if_pos h1]⟩
  · rw [if_neg h1]
    by_cases h2 : tx.gasPrice < ctx.baseFee
    · exact Or.inr ⟨_, by rw [if_pos h2]⟩
    · rw [if_neg h2]
      unfold Transaction.rlpSizeWithout
      rw [rlpOut_without]
      dsimp only [pbind]
      by_cases h3 :
          128 * 1024 < (rlpItemsBytes [.list tx.unsignedListItems]).length
      · exact Or.inr ⟨_, by rw [if_pos h3]⟩
      · exact Or.inl (by rw [if_neg h3])

/-- C6 (amended): whenever the sender's recorded balance is below
`value + gas_limit · gas_price` AND that total cost fits in a `U256`
(no overflow), `execute_transaction` returns an `InvalidTransaction`
error — whichever pre-flight check fires first, they all carry that
kind — and hands back the state completely unchanged. -/
theorem c6_insufficient_balance_rejected (crypto : ExternalCrypto)
    (hashFn : Transaction → Nat) (sender : Nat)
    (revm : Transaction → Except Unit (Except OlError EvmExecutionResult))
    (ctx : TxExecContext) (st : MemState) (tx : Transaction)
    (hbal : st.getBalance sender < tx.value + tx.gas * tx.gasPrice)
    (hov : tx.value + tx.gas * tx.gasPrice < 2 ^ 256) :
    ∃ msg, executeTransaction crypto hashFn sender revm ctx st tx =
      .ok (st, .error (.invalidTransaction msg)) := by
  unfold executeTransaction
  rcases validateTransaction_shape ctx tx with hv | ⟨msg, hv⟩
  · rw [hv]
    dsimp only [pbind]
    by_cases hn : tx.nonce ≠ st.getNonce sender
    · exact ⟨"Invalid nonce", by rw [if_pos hn]⟩
    · rw [if_neg hn]
      have hmul : u256Mul tx.gas tx.gasPrice = .ok (tx.gas * tx.gasPrice) := by
        unfold u256Mul U256_LIMIT
        rw [if_pos (by omega)]
      have hadd : u256Add tx.value (tx.gas * tx.gasPrice) =
          .ok (tx.value + tx.gas * tx.gasPrice) := by
        unfold u256Add U256_LIMIT
        rw [if_pos (by omega)]
      rw [hmul]
      dsimp only [pbind]
      rw [hadd]
      dsimp only [pbind]
      exact ⟨"Insufficient balance", by rw [if_pos hbal]⟩
  · rw [hv]
    exact ⟨msg, rfl⟩

/-- Dummy instantiations of the external functions, for concrete runs
that never reach them. -/
def cryptoStub : ExternalCrypto := ⟨fun _ => [], fun _ => [], fun _ => 0⟩

/-- Abstract-EVM stub for concrete runs that never reach revm. -/
def revmStub : Transaction → Except Unit (Except OlError EvmExecutionResult) :=
  fun _ => .ok (.error (.evmExecution "external"))

/-- The transaction of the C6 counterexample: `value = 2^256 - 1`, so the
`value + gas_limit·gas_price` total-cost addition overflows `U256`. -/
def c6PanicTx : Transaction :=
  { nonce := 0, value := 2 ^ 256 - 1, receiveAddress := 66,
    gasPrice := 1000000000, gas := 1, data := [], signature := none,
    chainId := some 970 }

/-- C6 counterexample to the claim as stated: the sender balance (0) is
below `value + gas_limit·gas_price`, yet `execute_transaction` does NOT
return an `InvalidTransaction` error — the `U256` addition computing the
total cost overflows and the executor panics. -/
theorem c6_overflow_panics_counterexample :
    MemState.empty.getBalance 5 <
        c6PanicTx.value + c6PanicTx.gas * c6PanicTx.gasPrice ∧
      executeTransaction cryptoStub (fun _ => 0) 5 revmStub
        TxExecContext.mkDefault MemState.empty c6PanicTx = .error () := by
  constructor
  · decide
  · decide

/-- The balance-0 / value-1 transaction of the C6 witness. -/
def c6WitnessTx : Transaction :=
  { nonce := 0, value := 1, receiveAddress := 66, gasPrice := 1000000000,
    gas := 21000, data := [], signature := none, chainId := some 970 }

/-- C6 witness: the amended theorem applies to the spec's scenario
(sender balance 0, `value = 1`). -/
theorem c6_insufficient_balance_rejected_witness :
    ∃ msg, executeTransaction cryptoStub (fun _ => 0) 5 revmStub
        TxExecContext.mkDefault MemState.empty c6WitnessTx =
      .ok (MemState.empty, .error (.invalidTransaction msg)) :=
  c6_insufficient_balance_rejected cryptoStub (fun _ => 0) 5 revmStub
    TxExecContext.mkDefault MemState.empty c6WitnessTx (by decide) (by decide)

/-- The C5 state: sender 5 holds 10^18 wei; no other accounts. -/
def c5State : MemState := ⟨[(5, 10 ^ 18)], [], []⟩

/-- The C5 transaction: calls the identity precompile (address
0x0404…04) transferring value 7 with gas 21018 at 1 gwei. -/
def c5Tx : Transaction :=
  { nonce := 0, value := 7, receiveAddress := repAddr 4, gasPrice := 10 ^ 9,
    gas := 21018, data := [222, 173, 190, 239], signature := none,
    chainId := some 970 }

/-- C5: ether conservation is violated on a successful execution. The
run succeeds (identity precompile, gas_used 15), the sender and the
non-zero recipient are distinct, yet the two balance deltas plus the
coinbase debit sum to the transferred value 7, not 0:
`update_state_after_transaction` credits `value` to the recipient but
never debits it from the sender. -/
theorem c5_ether_conservation_violated (crypto : ExternalCrypto)
    (hashFn : Transaction → Nat)
    (revm : Transaction → Except Unit (Except OlError EvmExecutionResult)) :
    ∃ st2 res,
      executeTransaction crypto hashFn 5 revm TxExecContext.mkDefault
          c5State c5Tx = .ok (st2, .ok res) ∧
        res.success = true ∧
        (5 : Nat) ≠ repAddr 4 ∧ repAddr 4 ≠ 0 ∧
        st2.getBalance 5 + st2.getBalance (repAddr 4) +
            res.gasUsed * res.gasPrice =
          c5State.getBalance 5 + c5State.getBalance (repAddr 4) +
            c5Tx.value ∧
        c5Tx.value ≠ 0 := by
  refine ⟨⟨[(5, 999999985000000000),
      (22925515879700437932606820905353459131857765380, 7)], [(5, 1)], []⟩,
    { transactionHash := hashFn c5Tx, gasUsed := 15, gasPrice := 1000000000,
      success := true, output := [222, 173, 190, 239],
      contractAddress := none, error := none },
    rfl, rfl, by decide, by decide, by dsimp only; decide, by decide⟩

end Olympus